import Mathlib

/-!
Verification of the Corebryo engine rendering core.

This file is a shallow embedding, in Lean 4, of the parts of the Corebryo
engine that the specification talks about: the Vulkan swapchain manager
(VulkanSwapchain.cpp), device bootstrap (VulkanDevice.cpp), the frame
orchestrator (VulkanRenderer.cpp), the engine runtime tick (EngineRuntime.cpp)
and the skybox catalog parser and cubemap builder (SkyboxRenderer.cpp).

Modelling conventions:
- Vulkan handles are natural numbers, with 0 playing VK_NULL_HANDLE.
- Calls into the Vulkan driver are modelled by oracles (records of results
  the driver would return); the embedding is a function of those oracles.
- Machine integers are Nat or Int with explicit truncation where the source
  casts; floating point values are an abstract scalar type together with a
  record of the primitive operations the source applies to them, so that
  structural properties (determinism, control flow) can be proved without
  interpreting IEEE arithmetic.
-/

namespace Corebryo

/-- UINT32_MAX, the sentinel used by Vulkan surface capabilities. -/
def UINT32_MAX : Nat := 4294967295

/-- VkExtent2D: a width and a height in pixels. -/
structure VkExtent2D where
  width : Nat
  height : Nat
deriving DecidableEq, Repr

/-- VkSurfaceCapabilitiesKHR fields used by VulkanSwapchain::Create. -/
structure VkSurfaceCapabilities where
  currentExtent : VkExtent2D
  minImageExtent : VkExtent2D
  maxImageExtent : VkExtent2D
  minImageCount : Nat
  maxImageCount : Nat
deriving DecidableEq, Repr

/-- Well-formedness of surface capabilities, exactly the guarantees the
Vulkan specification gives for VkSurfaceCapabilitiesKHR: the extent range is
non-degenerate and, when currentExtent is not the UINT32_MAX sentinel, it
lies inside the reported [minImageExtent, maxImageExtent] range. -/
def VkSurfaceCapabilities.WellFormed (caps : VkSurfaceCapabilities) : Prop :=
  caps.minImageExtent.width ≤ caps.maxImageExtent.width ∧
  caps.minImageExtent.height ≤ caps.maxImageExtent.height ∧
  (caps.currentExtent.width ≠ UINT32_MAX →
    caps.minImageExtent.width ≤ caps.currentExtent.width ∧
    caps.currentExtent.width ≤ caps.maxImageExtent.width ∧
    caps.minImageExtent.height ≤ caps.currentExtent.height ∧
    caps.currentExtent.height ≤ caps.maxImageExtent.height)

/-- VkSurfaceFormatKHR: a pixel format with a color space (numeric ids). -/
structure VkSurfaceFormat where
  format : Nat
  colorSpace : Nat
deriving DecidableEq, Repr

/-- VK_FORMAT_UNDEFINED. -/
def VK_FORMAT_UNDEFINED : Nat := 0

/-- VK_FORMAT_B8G8R8A8_UNORM. -/
def VK_FORMAT_B8G8R8A8_UNORM : Nat := 44

/-- VK_COLOR_SPACE_SRGB_NONLINEAR_KHR. -/
def VK_COLOR_SPACE_SRGB_NONLINEAR_KHR : Nat := 0

/-- Present modes relevant to VulkanSwapchain::Create. -/
inductive VkPresentMode
  | immediate
  | mailbox
  | fifo
  | fifoRelaxed
deriving DecidableEq, Repr

/-- Events emitted by the swapchain model, mirroring the Vulkan calls the
source makes while creating and destroying swapchain state. -/
inductive SwapchainEvent
  | createSwapchain (handle : Nat) (minImageCount : Nat) (extent : VkExtent2D)
  | destroySwapchain (handle : Nat)
  | createImageView (handle : Nat)
  | destroyImageView (handle : Nat)
deriving DecidableEq, Repr

/-- The driver-side oracle for one VulkanSwapchain::Create call: what each
Vulkan entry point would report. viewResult i is the result of the i-th
vkCreateImageView call (none = VK_ERROR, some h = the created handle). -/
structure SwapchainHost where
  capabilitiesResult : Option VkSurfaceCapabilities
  formats : List VkSurfaceFormat
  presentModes : List VkPresentMode
  createSwapchainResult : Option Nat
  swapchainImages : List Nat
  viewResult : Nat → Option Nat

/-- Member state of the VulkanSwapchain object (handle 0 = VK_NULL_HANDLE). -/
structure VulkanSwapchainState where
  swapchain : Nat
  imageFormat : Nat
  swapchainExtent : VkExtent2D
  swapchainImageViews : List Nat
deriving Repr

namespace VulkanSwapchain

/-- The default-constructed swapchain object. -/
def initial : VulkanSwapchainState :=
  { swapchain := 0
    imageFormat := VK_FORMAT_UNDEFINED
    swapchainExtent := ⟨0, 0⟩
    swapchainImageViews := [] }

/-- VulkanSwapchain::Destroy: destroy every non-null image view in order,
clear the view list, then destroy the swapchain handle if non-null. -/
def destroy (s : VulkanSwapchainState) : VulkanSwapchainState × List SwapchainEvent :=
  let viewEvents := s.swapchainImageViews.filterMap fun v =>
    if v ≠ 0 then some (SwapchainEvent.destroyImageView v) else none
  let swapEvents := if s.swapchain ≠ 0 then [SwapchainEvent.destroySwapchain s.swapchain] else []
  ({ s with swapchainImageViews := [], swapchain := 0 }, viewEvents ++ swapEvents)

/-- Surface-format selection (VulkanSwapchain.cpp lines 82-89): take the
first reported format, but if exactly one format is reported and it is
VK_FORMAT_UNDEFINED, substitute B8G8R8A8_UNORM / SRGB nonlinear. -/
def selectSurfaceFormat (formats : List VkSurfaceFormat) : VkSurfaceFormat :=
  let first := formats.headD ⟨0, 0⟩
  if formats.length = 1 ∧ first.format = VK_FORMAT_UNDEFINED then
    ⟨VK_FORMAT_B8G8R8A8_UNORM, VK_COLOR_SPACE_SRGB_NONLINEAR_KHR⟩
  else
    first

/-- Present-mode selection loop (VulkanSwapchain.cpp lines 103-118): start
from FIFO when vsync is enabled and IMMEDIATE otherwise; without vsync a
MAILBOX entry wins immediately (break) and an IMMEDIATE entry replaces the
accumulator while the scan continues. -/
def selectPresentModeLoop (enableVsync : Bool) :
    List VkPresentMode → VkPresentMode → VkPresentMode
  | [], acc => acc
  | m :: ms, acc =>
    if !enableVsync ∧ m = VkPresentMode.mailbox then m
    else if !enableVsync ∧ m = VkPresentMode.immediate then
      selectPresentModeLoop enableVsync ms m
    else
      selectPresentModeLoop enableVsync ms acc

/-- The initial present-mode accumulator and the loop together. -/
def selectPresentMode (enableVsync : Bool) (modes : List VkPresentMode) : VkPresentMode :=
  selectPresentModeLoop enableVsync modes
    (if enableVsync then VkPresentMode.fifo else VkPresentMode.immediate)

/-- Swapchain-extent selection (VulkanSwapchain.cpp lines 120-135): take the
surface currentExtent verbatim unless its width is the UINT32_MAX sentinel,
in which case clamp the requested size into [minImageExtent, maxImageExtent]
with max(min, min(max, requested)) per component. -/
def chooseSwapExtent (caps : VkSurfaceCapabilities) (width height : Nat) : VkExtent2D :=
  if caps.currentExtent.width ≠ UINT32_MAX then
    caps.currentExtent
  else
    { width := max caps.minImageExtent.width (min caps.maxImageExtent.width width)
      height := max caps.minImageExtent.height (min caps.maxImageExtent.height height) }

/-- Image-count selection (VulkanSwapchain.cpp lines 137-143):
minImageCount + 1, lowered to maxImageCount when that cap is nonzero and
exceeded. -/
def chooseImageCount (caps : VkSurfaceCapabilities) : Nat :=
  let imageCount := caps.minImageCount + 1
  if caps.maxImageCount > 0 ∧ imageCount > caps.maxImageCount then
    caps.maxImageCount
  else
    imageCount

/-- The per-image view-creation loop (VulkanSwapchain.cpp lines 187-211).
On the first failed vkCreateImageView the source calls Destroy(Device) and
returns false; on success each created view is pushed onto the member
vector. -/
def createViewsLoop (host : SwapchainHost) :
    List Nat → Nat → VulkanSwapchainState → List SwapchainEvent →
    Bool × VulkanSwapchainState × List SwapchainEvent
  | [], _, s, evs => (true, s, evs)
  | _img :: rest, idx, s, evs =>
    match host.viewResult idx with
    | none =>
      let (s', devs) := destroy s
      (false, s', evs ++ devs)
    | some h =>
      createViewsLoop host rest (idx + 1)
        { s with swapchainImageViews := s.swapchainImageViews ++ [h] }
        (evs ++ [SwapchainEvent.createImageView h])

/-- VulkanSwapchain::Create, as a function of the driver oracle, the
requested size and the vsync flag, threading the object member state. -/
def create (host : SwapchainHost) (width height : Nat) (enableVsync : Bool)
    (s : VulkanSwapchainState) :
    Bool × VulkanSwapchainState × List SwapchainEvent :=
  match host.capabilitiesResult with
  | none => (false, s, [])
  | some caps =>
    if host.formats.length = 0 then (false, s, [])
    else
      let surfaceFormat := selectSurfaceFormat host.formats
      let _presentMode := selectPresentMode enableVsync host.presentModes
      let extent := chooseSwapExtent caps width height
      let imageCount := chooseImageCount caps
      match host.createSwapchainResult with
      | none => (false, s, [])
      | some handle =>
        let s1 := { s with swapchain := handle }
        let evs1 := [SwapchainEvent.createSwapchain handle imageCount extent]
        let s2 := { s1 with swapchainImageViews := [] }
        match createViewsLoop host host.swapchainImages 0 s2 evs1 with
        | (false, s3, evs3) => (false, s3, evs3)
        | (true, s3, evs3) =>
          (true,
           { s3 with imageFormat := surfaceFormat.format, swapchainExtent := extent },
           evs3)

end VulkanSwapchain

/-- The image-view handles created according to an event trace, in order. -/
def createdViews (evs : List SwapchainEvent) : List Nat :=
  evs.filterMap fun e =>
    match e with
    | SwapchainEvent.createImageView h => some h
    | _ => none

/-- The image-view handles destroyed according to an event trace, in order. -/
def destroyedViews (evs : List SwapchainEvent) : List Nat :=
  evs.filterMap fun e =>
    match e with
    | SwapchainEvent.destroyImageView h => some h
    | _ => none

/-! ## Device bootstrap (VulkanDevice.cpp) -/

/-- VkPhysicalDeviceType values distinguished by the source. -/
inductive VkPhysicalDeviceType
  | discreteGpu
  | integratedGpu
  | virtualGpu
  | cpuDevice
  | otherDevice
deriving DecidableEq, Repr

/-- One enumerated physical device: its reported type and, per queue
family, the queueFlags bitmask (bit 0 is VK_QUEUE_GRAPHICS_BIT). -/
structure PhysicalDevice where
  devType : VkPhysicalDeviceType
  queueFamilyFlags : List Nat
deriving DecidableEq, Repr

/-- VulkanDevice::PickPhysicalDevice (VulkanDevice.cpp lines 111-142): fail
when no device is enumerated; otherwise the first device whose type is
DISCRETE_GPU, falling back to the first enumerated device. -/
def pickPhysicalDevice : List PhysicalDevice → Option PhysicalDevice
  | [] => none
  | d :: ds =>
    match (d :: ds).find? (fun c => decide (c.devType = VkPhysicalDeviceType.discreteGpu)) with
    | some c => some c
    | none => some d

/-- VulkanDevice::FindGraphicsQueueFamily (lines 144-165): the index of the
first queue family whose queueFlags has the graphics bit set. -/
def findGraphicsQueueFamily (d : PhysicalDevice) : Option Nat :=
  d.queueFamilyFlags.findIdx? (fun flags => flags.testBit 0)

/-- State produced by a successful VulkanDevice::Create. -/
structure VulkanDeviceState where
  physicalDevice : PhysicalDevice
  graphicsQueueFamily : Nat
deriving Repr

/-- VulkanDevice::Create (lines 46-70): pick a physical device, find a
graphics queue family on the picked device, then create the logical device
(whose driver result is the vkCreateDeviceOk oracle). Any failure aborts
with no logical device. -/
def vulkanDeviceCreate (devices : List PhysicalDevice) (vkCreateDeviceOk : Bool) :
    Option VulkanDeviceState :=
  match pickPhysicalDevice devices with
  | none => none
  | some picked =>
    match findGraphicsQueueFamily picked with
    | none => none
    | some family =>
      if vkCreateDeviceOk then
        some { physicalDevice := picked, graphicsQueueFamily := family }
      else
        none

/-! ## Skybox catalog parsing (SkyboxRenderer.cpp, LoadCatalog) -/

/-- C isspace over the default locale: space, tab, newline, vertical tab,
form feed, carriage return. -/
def isSpaceByte (c : Char) : Bool :=
  c = ' ' ∨ c = '\t' ∨ c = '\n' ∨ c = '\x0b' ∨ c = '\x0c' ∨ c = '\r'

/-- Trim (SkyboxRenderer.cpp lines 61-77): drop leading and trailing
isspace characters. -/
def trimChars (text : List Char) : List Char :=
  ((text.dropWhile isSpaceByte).reverse.dropWhile isSpaceByte).reverse

/-- One catalog entry (SkyboxRenderer.h SkyboxDefinition): name, HDR path
and cubemap face size, size defaulting to 512. -/
structure SkyboxDefinition where
  name : List Char
  hdrPath : List Char
  size : Nat
deriving DecidableEq, Repr

/-- The default-initialized SkyboxDefinition. -/
def SkyboxDefinition.initial : SkyboxDefinition :=
  { name := [], hdrPath := [], size := 512 }

/-- Contents of the std::unordered_map keyed by skybox name. The map is
represented by its entries in insertion order; operator[] assignment
replaces the value for an existing key and otherwise appends. Iteration
order of the real container is unspecified by the C++ standard and is
therefore supplied separately (see loadCatalog's iterationOrder input). -/
def mapAssign (m : List (List Char × SkyboxDefinition)) (k : List Char)
    (v : SkyboxDefinition) : List (List Char × SkyboxDefinition) :=
  if m.any (fun kv => decide (kv.fst = k)) then
    m.map (fun kv => if kv.fst = k then (k, v) else kv)
  else
    m ++ [(k, v)]

/-- Lookup in the map contents (std::unordered_map::find). -/
def mapFind (m : List (List Char × SkyboxDefinition)) (k : List Char) :
    Option SkyboxDefinition :=
  (m.find? (fun kv => decide (kv.fst = k))).map Prod.snd

/-- std::filesystem::path::is_relative, POSIX rule: a path is relative iff
it has no root, i.e. does not start with the directory separator. -/
def isRelativePath (p : List Char) : Bool :=
  p.head? ≠ some '/'

/-- strtoul with base 10 (as used on the size= token): skip leading
isspace, consume an optional sign, then digits; none when no digit was
consumed (endPtr == start). A minus sign wraps modulo 2^64 (unsigned
long). -/
def strtoul10 (s : List Char) : Option Nat :=
  let afterSpace := s.dropWhile isSpaceByte
  let (neg, afterSign) :=
    match afterSpace with
    | '-' :: rest => (true, rest)
    | '+' :: rest => (false, rest)
    | rest => (false, rest)
  let digits := afterSign.takeWhile Char.isDigit
  if digits.isEmpty then none
  else
    let value := digits.foldl (fun acc c => acc * 10 + (c.toNat - 48)) 0
    some (if neg then (2 ^ 64 - value % 2 ^ 64) % 2 ^ 64 else value % 2 ^ 64)

/-- std::getline with a ';' delimiter over a stringstream: like splitting
on ';' except that a trailing delimiter does not produce a final empty
token and the empty string produces no token. -/
def getlineSplitSemicolon (l : List Char) : List (List Char) :=
  if l.isEmpty then []
  else if l.getLast? = some ';' then (l.splitOn ';').dropLast
  else l.splitOn ';'

/-- The token loop over one definition value (SkyboxRenderer.cpp lines
953-988): the first non-empty token is the HDR path (prefixed with the
assets root when relative); later tokens starting with size= update the
size when strtoul consumed digits (the result cast to uint32_t). -/
def parseValueTokens (root sep : List Char) :
    List (List Char) → Bool → SkyboxDefinition → SkyboxDefinition
  | [], _, defn => defn
  | t :: ts, firstToken, defn =>
    let part := trimChars t
    if part.isEmpty then
      parseValueTokens root sep ts firstToken defn
    else if firstToken then
      let hdrPath := if isRelativePath part then root ++ sep ++ part else part
      parseValueTokens root sep ts false { defn with hdrPath := hdrPath }
    else if part.take 5 = "size=".toList then
      let sizeStr := trimChars (part.drop 5)
      if sizeStr.isEmpty then
        parseValueTokens root sep ts firstToken defn
      else
        match strtoul10 sizeStr with
        | none => parseValueTokens root sep ts firstToken defn
        | some v =>
          parseValueTokens root sep ts firstToken { defn with size := v % 2 ^ 32 }
    else
      parseValueTokens root sep ts firstToken defn

/-- In-progress catalog state: the map contents in insertion order and the
default skybox name. -/
structure CatalogState where
  skyboxes : List (List Char × SkyboxDefinition)
  defaultSkyboxName : List Char
deriving DecidableEq, Repr

/-- Processing of one catalog line (SkyboxRenderer.cpp lines 917-994). -/
def processLine (root sep : List Char) (st : CatalogState) (line : List Char) :
    CatalogState :=
  let trimmed := trimChars line
  if trimmed.isEmpty then st
  else if trimmed.head? = some '#' then st
  else
    match trimmed.findIdx? (fun c => c = '=') with
    | none => st
    | some equalPos =>
      let key := trimChars (trimmed.take equalPos)
      let value := trimChars (trimmed.drop (equalPos + 1))
      if key.isEmpty ∨ value.isEmpty then st
      else if key = "default".toList then
        { st with defaultSkyboxName := value }
      else
        let defn := parseValueTokens root sep (getlineSplitSemicolon value) true
          { SkyboxDefinition.initial with name := key }
        if defn.hdrPath.isEmpty then st
        else { st with skyboxes := mapAssign st.skyboxes key defn }

/-- SkyboxRenderer::LoadCatalog (lines 897-1008). The catalog file is an
input: none models a missing or unopenable skyboxes.txt. iterationOrder
models the unspecified iteration order of the std::unordered_map: it maps
the map contents to the sequence begin()..end() visits; any permutation is
a legal behavior of a conforming C++ standard library. -/
def loadCatalog (root sep : List Char)
    (iterationOrder : List (List Char × SkyboxDefinition) → List (List Char × SkyboxDefinition))
    (fileLines : Option (List (List Char))) : Option CatalogState :=
  match fileLines with
  | none => none
  | some lines =>
    let st := lines.foldl (processLine root sep) { skyboxes := [], defaultSkyboxName := [] }
    if st.skyboxes.isEmpty then none
    else if st.defaultSkyboxName.isEmpty ∨ mapFind st.skyboxes st.defaultSkyboxName = none then
      match (iterationOrder st.skyboxes).head? with
      | some kv => some { st with defaultSkyboxName := kv.fst }
      | none => none
    else some st

/-- Driver and filesystem oracle for SkyboxRenderer::Create. -/
structure SkyboxCreateEnv where
  assetsRootFound : Bool
  catalogLines : Option (List (List Char))
  descriptorResourcesOk : Bool
  vertexBufferOk : Bool
  shadersFound : Bool
  loadResourcesOk : Bool
  pipelineOk : Bool

/-- SkyboxRenderer::Create (lines 640-708), down to whether it returns
true: locate the assets root, load the catalog, build descriptor and
vertex-buffer resources, find the shaders, resolve the default entry in
the map, load its cubemap and build the pipeline. -/
def skyboxRendererCreate (env : SkyboxCreateEnv) (root sep : List Char)
    (iterationOrder : List (List Char × SkyboxDefinition) → List (List Char × SkyboxDefinition)) :
    Bool :=
  if !env.assetsRootFound then false
  else
    match loadCatalog root sep iterationOrder env.catalogLines with
    | none => false
    | some catalog =>
      if !env.descriptorResourcesOk then false
      else if !env.vertexBufferOk then false
      else if !env.shadersFound then false
      else
        match mapFind catalog.skyboxes catalog.defaultSkyboxName with
        | none => false
        | some _ => env.loadResourcesOk && env.pipelineOk

/-! ## Frame orchestrator (VulkanRenderer.cpp, DrawFrame and stage recording)

Floating-point payloads (matrices, colors, viewport rectangles) are
abstracted away from the recorded command trace; the trace keeps the data
the claims are about: image layouts, pass identity, buffer handles and
draw counts. -/

/-- The image layouts appearing in the shadow barrier cycle. -/
inductive ImageLayout
  | undefinedLayout
  | depthStencilAttachmentOptimal
  | depthStencilReadOnlyOptimal
deriving DecidableEq, Repr

/-- The two render passes DrawFrame begins. -/
inductive PassKind
  | shadowPass
  | mainPass
deriving DecidableEq, Repr

/-- The pipelines bound while recording. -/
inductive PipelineKind
  | shadowPipeline
  | worldPipeline
  | skyboxPipeline
deriving DecidableEq, Repr

/-- Commands and synchronization operations recorded during one DrawFrame. -/
inductive GpuCmd
  | waitForFences
  | acquireNextImage
  | resetFences
  | resetCommandBuffer
  | beginCommandBuffer
  | pipelineBarrier (oldLayout newLayout : ImageLayout)
  | beginRenderPass (pass : PassKind)
  | bindPipeline (p : PipelineKind)
  | bindDescriptorSets
  | setViewport
  | setScissor
  | bindVertexBuffer (handle : Nat)
  | pushConstantsShadow
  | pushConstantsWorld (mode : Nat)
  | pushConstantsSkybox
  | bindIndexBuffer (handle : Nat)
  | draw (vertexCount : Nat)
  | drawIndexed (indexCount : Nat)
  | endRenderPass (pass : PassKind)
  | endCommandBuffer
  | queueSubmit
  | queuePresent
deriving DecidableEq, Repr

/-- Mesh fields read while recording (Mesh.h): buffer handles (0 = null),
counts and the indexed flag. -/
structure MeshData where
  vertexBufferHandle : Nat
  indexBufferHandle : Nat
  vertexCount : Nat
  indexCount : Nat
  hasIndex : Bool
deriving DecidableEq, Repr

/-- A render submission item (RenderItem.h). MeshPtr is nullable; the
material pointer and model matrix only feed floating-point push-constant
payloads and are abstracted. -/
structure RenderItemM where
  meshPtr : Option MeshData
deriving DecidableEq, Repr

/-- The per-item body of the shadow-pass loop (VulkanRenderer.cpp lines
784-823): a null mesh pointer or zero vertex count is skipped before any
mesh field is read; otherwise bind the vertex buffer when non-null, push
the shadow constants, and draw indexed (when HasIndex and a nonzero index
count and a non-null index buffer) or non-indexed. -/
def shadowItemCmds (item : RenderItemM) : List GpuCmd :=
  match item.meshPtr with
  | none => []
  | some m =>
    if m.vertexCount = 0 then []
    else
      (if m.vertexBufferHandle ≠ 0 then [GpuCmd.bindVertexBuffer m.vertexBufferHandle] else [])
      ++ [GpuCmd.pushConstantsShadow]
      ++ (if m.hasIndex ∧ m.indexCount > 0 then
            (if m.indexBufferHandle ≠ 0 then
              [GpuCmd.bindIndexBuffer m.indexBufferHandle, GpuCmd.drawIndexed m.indexCount]
            else [])
          else [GpuCmd.draw m.vertexCount])

/-- The per-item body of the opaque-stage loop (VulkanRenderer.cpp lines
623-673), with the same null/empty skip and the world push constants
carrying Mode = 1. -/
def opaqueItemCmds (item : RenderItemM) : List GpuCmd :=
  match item.meshPtr with
  | none => []
  | some m =>
    if m.vertexCount = 0 then []
    else
      (if m.vertexBufferHandle ≠ 0 then [GpuCmd.bindVertexBuffer m.vertexBufferHandle] else [])
      ++ [GpuCmd.pushConstantsWorld 1]
      ++ (if m.hasIndex ∧ m.indexCount > 0 then
            (if m.indexBufferHandle ≠ 0 then
              [GpuCmd.bindIndexBuffer m.indexBufferHandle, GpuCmd.drawIndexed m.indexCount]
            else [])
          else [GpuCmd.draw m.vertexCount])

/-- VulkanRenderer::RecordOpaqueStage (lines 604-674): bind the world
pipeline and the descriptor set, then iterate the render items. -/
def recordOpaqueStage (items : List RenderItemM) : List GpuCmd :=
  GpuCmd.bindPipeline PipelineKind.worldPipeline :: GpuCmd.bindDescriptorSets ::
    items.flatMap opaqueItemCmds

/-- SkyboxRenderer::Record (lines 743-831): early-out when the camera is
missing, the pipeline or descriptor set is null, the extent has a zero
side, or the vertex buffer is null; otherwise bind, set viewport/scissor,
push constants and draw the fixed 36-vertex cube. -/
def recordSkyboxStage (cameraPresent skyboxReady : Bool)
    (skyboxVertexBufferHandle : Nat) (extent : VkExtent2D) : List GpuCmd :=
  if !cameraPresent ∨ !skyboxReady then []
  else if extent.width = 0 ∨ extent.height = 0 then []
  else
    [GpuCmd.bindPipeline PipelineKind.skyboxPipeline, GpuCmd.bindDescriptorSets,
     GpuCmd.setViewport, GpuCmd.setScissor]
    ++ (if skyboxVertexBufferHandle = 0 then []
        else [GpuCmd.bindVertexBuffer skyboxVertexBufferHandle,
              GpuCmd.pushConstantsSkybox, GpuCmd.draw 36])

/-- The renderer member state DrawFrame reads and writes. -/
structure RendererState where
  swapchain : Nat
  renderPass : Nat
  commandBufferCount : Nat
  shadowLayoutInitialized : Bool
  inFlightFenceSignaled : Bool
  renderItems : List RenderItemM
  swapchainExtent : VkExtent2D
  cameraPresent : Bool
  skyboxReady : Bool
  skyboxVertexBufferHandle : Nat
deriving Repr

/-- vkAcquireNextImageKHR results distinguished by DrawFrame. -/
inductive AcquireResult
  | success
  | suboptimal
  | errorOutOfDate
  | otherError
deriving DecidableEq, Repr

/-- Driver oracle for one DrawFrame call. -/
structure FrameHost where
  acquireResult : AcquireResult
  submitOk : Bool
deriving Repr

/-- The fully recorded command-buffer contents of one frame, given the
shadow-layout flag at entry (VulkanRenderer.cpp lines 715-890): the shadow
barrier whose old layout is shader-readable once initialized and undefined
on the first frame, the shadow pass over all items, the barrier back to
shader-readable, then the main pass (skybox, opaque, transparent). -/
def recordedFrameCmds (s : RendererState) : List GpuCmd :=
  [GpuCmd.beginCommandBuffer,
   GpuCmd.pipelineBarrier
     (if s.shadowLayoutInitialized then ImageLayout.depthStencilReadOnlyOptimal
      else ImageLayout.undefinedLayout)
     ImageLayout.depthStencilAttachmentOptimal,
   GpuCmd.beginRenderPass PassKind.shadowPass,
   GpuCmd.bindPipeline PipelineKind.shadowPipeline,
   GpuCmd.setViewport, GpuCmd.setScissor]
  ++ s.renderItems.flatMap shadowItemCmds
  ++ [GpuCmd.endRenderPass PassKind.shadowPass,
      GpuCmd.pipelineBarrier ImageLayout.depthStencilAttachmentOptimal
        ImageLayout.depthStencilReadOnlyOptimal,
      GpuCmd.beginRenderPass PassKind.mainPass,
      GpuCmd.setViewport, GpuCmd.setScissor]
  ++ recordSkyboxStage s.cameraPresent s.skyboxReady s.skyboxVertexBufferHandle s.swapchainExtent
  ++ recordOpaqueStage s.renderItems
  ++ [GpuCmd.endRenderPass PassKind.mainPass,
      GpuCmd.endCommandBuffer]

/-- VulkanRenderer::DrawFrame (lines 683-918). An early return keeps the
state except for the effects already performed. Waiting on the in-flight
fence blocks until the fence is signaled, so the post-wait fence state is
signaled; vkResetFences unsignals it; a successful submit hands it to the
GPU, which signals it when the frame completes (collapsed here into the
submitted state, which the next wait observes). -/
def drawFrame (host : FrameHost) (s : RendererState) : RendererState × List GpuCmd :=
  if s.swapchain = 0 ∨ s.renderPass = 0 ∨ s.commandBufferCount = 0 then
    (s, [])
  else
    let sWait := { s with inFlightFenceSignaled := true }
    let preCmds := [GpuCmd.waitForFences, GpuCmd.acquireNextImage]
    if host.acquireResult ≠ AcquireResult.success ∧
        host.acquireResult ≠ AcquireResult.suboptimal then
      (sWait, preCmds)
    else
      let sReset := { sWait with inFlightFenceSignaled := false }
      let recCmds := recordedFrameCmds sReset
      let sRecorded := { sReset with shadowLayoutInitialized := true }
      if !host.submitOk then
        (sRecorded,
         preCmds ++ [GpuCmd.resetFences, GpuCmd.resetCommandBuffer] ++ recCmds ++
           [GpuCmd.queueSubmit])
      else
        ({ sRecorded with inFlightFenceSignaled := true },
         preCmds ++ [GpuCmd.resetFences, GpuCmd.resetCommandBuffer] ++ recCmds ++
           [GpuCmd.queueSubmit, GpuCmd.queuePresent])

/-- Iterated DrawFrame calls: the per-call command traces in order. -/
def runFrames : RendererState → List FrameHost → List (List GpuCmd)
  | _, [] => []
  | s, h :: hs =>
    let (s', t) := drawFrame h s
    t :: runFrames s' hs

/-- A frame counts as recorded when a render pass was begun in it. -/
def FrameRecorded (t : List GpuCmd) : Bool :=
  t.any fun c => c = GpuCmd.beginRenderPass PassKind.shadowPass

/-- The traces of the recorded frames among a run. -/
def recordedTraces (s : RendererState) (hosts : List FrameHost) : List (List GpuCmd) :=
  (runFrames s hosts).filter FrameRecorded

/-- The layout transitions of the barriers in a trace, in order. -/
def barriersOf (t : List GpuCmd) : List (ImageLayout × ImageLayout) :=
  t.filterMap fun c =>
    match c with
    | GpuCmd.pipelineBarrier o n => some (o, n)
    | _ => none

/-- The draw calls in a trace (non-indexed and indexed), in order. -/
def drawsOf (t : List GpuCmd) : List GpuCmd :=
  t.filter fun c =>
    match c with
    | GpuCmd.draw _ => true
    | GpuCmd.drawIndexed _ => true
    | _ => false

/-! ## Engine runtime tick (EngineRuntime.cpp, TickRender) -/

/-- The engine-runtime state TickRender touches: the swapchain extent the
guard reads, the renderer, the render item list built by the simulation
tick, and a marker for the overlay timing statistic, whose floating-point
payload is abstracted. -/
structure EngineState where
  swapchainExtent : VkExtent2D
  renderer : RendererState
  renderItems : List RenderItemM
  overlayTimingSet : Bool
deriving Repr

/-- EngineRuntime::TickRender (lines 315-328): push the overlay timing,
then skip the frame entirely when the swapchain extent has a zero side;
otherwise hand the render items to the renderer and draw. Returns the new
state, the commands recorded this tick and whether a frame was drawn. -/
def tickRender (host : FrameHost) (e : EngineState) : EngineState × List GpuCmd × Bool :=
  let e1 := { e with overlayTimingSet := true }
  if e1.swapchainExtent.width = 0 ∨ e1.swapchainExtent.height = 0 then
    (e1, [], false)
  else
    let r := { e1.renderer with renderItems := e1.renderItems }
    let (r', t) := drawFrame host r
    ({ e1 with renderer := r' }, t, true)

/-! ## Renderer resource lifecycle (VulkanRenderer.cpp, Create and Recreate)

Each owned GPU resource group is modelled by a generation id: 0 means the
resource does not exist, and every successful creation draws a fresh id
from a counter, so destroy-and-recreate changes the id while an untouched
resource keeps it. -/

/-- The resource groups owned by VulkanRenderer (VulkanRenderer.h). -/
structure RendererResources where
  descriptorSetLayout : Nat
  uniformBuffer : Nat
  descriptorPool : Nat
  shadowResources : Nat
  shadowRenderPass : Nat
  textureResources : Nat
  descriptorSet : Nat
  pipelineSet : Nat
  skyboxPipeline : Nat
  cubeMesh : Nat
  depthResources : Nat
  colorResources : Nat
  framebuffers : Nat
  commandPool : Nat
  commandBuffers : Nat
  syncObjects : Nat
deriving DecidableEq, Repr

/-- Success oracles for the creation steps VulkanRenderer::Recreate runs. -/
structure RecreateEnv where
  depthOk : Bool
  colorOk : Bool
  framebuffersOk : Bool
  skyboxRecreateOk : Bool
  commandPoolOk : Bool
  commandBuffersOk : Bool

/-- VulkanRenderer::Recreate (lines 1030-1100): destroy the framebuffers
and the depth and color attachment resources, recreate them for the new
extent, rebuild the skybox pipeline for the render pass, then free and
reallocate the command pool and command buffers. The pipeline set and the
shadow resources (including the shadow render pass) are not touched. -/
def vulkanRendererRecreate (env : RecreateEnv) (r : RendererResources) (n : Nat) :
    Bool × RendererResources × Nat :=
  let r0 := { r with framebuffers := 0, depthResources := 0, colorResources := 0 }
  if !env.depthOk then (false, r0, n)
  else
    let r1 := { r0 with depthResources := n }
    if !env.colorOk then (false, r1, n + 1)
    else
      let r2 := { r1 with colorResources := n + 1 }
      if !env.framebuffersOk then (false, r2, n + 2)
      else
        let r3 := { r2 with framebuffers := n + 2 }
        if !env.skyboxRecreateOk then (false, { r3 with skyboxPipeline := 0 }, n + 3)
        else
          let r4 := { r3 with skyboxPipeline := n + 3 }
          let r5 := { r4 with commandBuffers := 0, commandPool := 0 }
          if !env.commandPoolOk then (false, r5, n + 4)
          else
            let r6 := { r5 with commandPool := n + 4 }
            if !env.commandBuffersOk then (false, r6, n + 5)
            else
              (true, { r6 with commandBuffers := n + 5 }, n + 6)

/-- Success oracles for the creation steps VulkanRenderer::Create runs. -/
structure RendererCreateEnv where
  descriptorSetLayoutOk : Bool
  uniformBufferOk : Bool
  descriptorPoolOk : Bool
  shadowResourcesOk : Bool
  textureResourcesOk : Bool
  descriptorSetOk : Bool
  pipelineOk : Bool
  skyboxOk : Bool
  cubeMeshOk : Bool
  depthOk : Bool
  colorOk : Bool
  framebuffersOk : Bool
  commandPoolOk : Bool
  commandBuffersOk : Bool
  syncObjectsOk : Bool

/-- VulkanRenderer::Create (lines 395-560), as the sequence of resource
creations it performs; the shadow render pass is created inside
CreateShadowResources and the three-pipeline set by Pipeline->Create. -/
def vulkanRendererCreate (env : RendererCreateEnv) (r : RendererResources) (n : Nat) :
    Bool × RendererResources × Nat :=
  if !env.descriptorSetLayoutOk then (false, r, n)
  else
    let r1 := { r with descriptorSetLayout := n }
    if !env.uniformBufferOk then (false, r1, n + 1)
    else
      let r2 := { r1 with uniformBuffer := n + 1 }
      if !env.descriptorPoolOk then (false, r2, n + 2)
      else
        let r3 := { r2 with descriptorPool := n + 2 }
        if !env.shadowResourcesOk then (false, r3, n + 3)
        else
          let r4 := { r3 with shadowResources := n + 3, shadowRenderPass := n + 4 }
          if !env.textureResourcesOk then (false, r4, n + 5)
          else
            let r5 := { r4 with textureResources := n + 5 }
            if !env.descriptorSetOk then (false, r5, n + 6)
            else
              let r6 := { r5 with descriptorSet := n + 6 }
              if !env.pipelineOk then (false, r6, n + 7)
              else
                let r7 := { r6 with pipelineSet := n + 7 }
                if !env.skyboxOk then (false, r7, n + 8)
                else
                  let r8 := { r7 with skyboxPipeline := n + 8 }
                  if !env.cubeMeshOk then (false, r8, n + 9)
                  else
                    let r9 := { r8 with cubeMesh := n + 9 }
                    if !env.depthOk then (false, r9, n + 10)
                    else
                      let r10 := { r9 with depthResources := n + 10 }
                      if !env.colorOk then (false, r10, n + 11)
                      else
                        let r11 := { r10 with colorResources := n + 11 }
                        if !env.framebuffersOk then (false, r11, n + 12)
                        else
                          let r12 := { r11 with framebuffers := n + 12 }
                          if !env.commandPoolOk then (false, r12, n + 13)
                          else
                            let r13 := { r12 with commandPool := n + 13 }
                            if !env.commandBuffersOk then (false, r13, n + 14)
                            else
                              let r14 := { r13 with commandBuffers := n + 14 }
                              if !env.syncObjectsOk then (false, r14, n + 15)
                              else
                                (true, { r14 with syncObjects := n + 15 }, n + 16)

/-- All resource ids of a renderer state lie below the fresh-id counter. -/
def IdsBelow (r : RendererResources) (n : Nat) : Prop :=
  r.depthResources < n ∧ r.colorResources < n ∧ r.framebuffers < n ∧
  r.commandPool < n ∧ r.commandBuffers < n ∧ r.pipelineSet < n ∧
  r.shadowRenderPass < n ∧ r.shadowResources < n ∧ r.skyboxPipeline < n

/-! ## Cubemap builder (SkyboxRenderer.cpp, ConvertToCubemap)

The scalar type of the HDR samples is abstract: a ScalarOps record carries
exactly the primitive float operations the source applies, so the embedding
preserves the data flow of the conversion without interpreting IEEE
arithmetic. Every operation is a pure function of its operands, which is
what the determinism claim rests on. -/

/-- The primitive float operations used by SampleEquirectangular,
ConvertToCubemap, Vec3::Normalized and FloatToHalf: arithmetic,
std::floor, std::atan2, std::acos, std::sqrt, the comparisons behind
std::clamp and the == 0 test, the int casts, the literal constants
involved, and the IEEE-754 bit pattern FloatToHalf reads via memcpy. -/
structure ScalarOps (α : Type) where
  add : α → α → α
  sub : α → α → α
  mul : α → α → α
  div : α → α → α
  floorOp : α → α
  atan2Op : α → α → α
  acosOp : α → α
  sqrtOp : α → α
  ltOp : α → α → Bool
  beqOp : α → α → Bool
  ofInt : Int → α
  half : α
  pi : α
  bits : α → Nat
  toIntTrunc : α → Int

/-- Vec3 over the abstract scalar type (MathVector.h). -/
structure Vec3M (α : Type) where
  x : α
  y : α
  z : α

/-- Vec3 componentwise addition. -/
def Vec3M.addV (ops : ScalarOps α) (a b : Vec3M α) : Vec3M α :=
  ⟨ops.add a.x b.x, ops.add a.y b.y, ops.add a.z b.z⟩

/-- Vec3 componentwise subtraction. -/
def Vec3M.subV (ops : ScalarOps α) (a b : Vec3M α) : Vec3M α :=
  ⟨ops.sub a.x b.x, ops.sub a.y b.y, ops.sub a.z b.z⟩

/-- Vec3 scalar multiplication. -/
def Vec3M.smul (ops : ScalarOps α) (a : Vec3M α) (s : α) : Vec3M α :=
  ⟨ops.mul a.x s, ops.mul a.y s, ops.mul a.z s⟩

/-- Vec3::Normalized (MathVector.h lines 62-74): divide by the Euclidean
length unless it compares equal to zero, in which case the zero vector. -/
def Vec3M.normalized (ops : ScalarOps α) (v : Vec3M α) : Vec3M α :=
  let len := ops.sqrtOp (ops.add (ops.add (ops.mul v.x v.x) (ops.mul v.y v.y)) (ops.mul v.z v.z))
  if ops.beqOp len (ops.ofInt 0) then ⟨ops.ofInt 0, ops.ofInt 0, ops.ofInt 0⟩
  else ⟨ops.div v.x len, ops.div v.y len, ops.div v.z len⟩

/-- std::clamp(v, lo, hi): lo when v is less than lo, hi when hi is less
than v, otherwise v. -/
def clampOp (ops : ScalarOps α) (v lo hi : α) : α :=
  if ops.ltOp v lo then lo else if ops.ltOp hi v then hi else v

/-- A decoded equirectangular HDR image: size and RGB float triples in
scanline order (SkyboxRenderer.cpp HdrImage). -/
structure HdrImageM (α : Type) where
  width : Nat
  height : Nat
  data : List α

/-- Reading Data at a (possibly negative) int index; the source indexes
in bounds, the model totalizes out-of-range reads with 0. -/
def HdrImageM.dataAt (ops : ScalarOps α) (img : HdrImageM α) (i : Int) : α :=
  if 0 ≤ i then img.data.getD i.toNat (ops.ofInt 0) else ops.ofInt 0

/-- SampleEquirectangular (SkyboxRenderer.cpp lines 297-331): wrap U,
clamp V, bilinear-filter the four neighbouring texels. -/
def sampleEquirectangular (ops : ScalarOps α) (img : HdrImageM α) (u v : α) : Vec3M α :=
  let uWrapped := ops.sub u (ops.floorOp u)
  let vClamped := clampOp ops v (ops.ofInt 0) (ops.ofInt 1)
  let x := ops.mul uWrapped (ops.ofInt ((img.width : Int) - 1))
  let y := ops.mul vClamped (ops.ofInt ((img.height : Int) - 1))
  let x0 : Int := ops.toIntTrunc (ops.floorOp x)
  let y0 : Int := ops.toIntTrunc (ops.floorOp y)
  let x1 : Int := (x0 + 1).tmod (img.width : Int)
  let y1 : Int := min (y0 + 1) ((img.height : Int) - 1)
  let tx := ops.sub x (ops.ofInt x0)
  let ty := ops.sub y (ops.ofInt y0)
  let sampleAt : Int → Int → Vec3M α := fun sx sy =>
    let index := (sy * (img.width : Int) + sx) * 3
    ⟨img.dataAt ops index, img.dataAt ops (index + 1), img.dataAt ops (index + 2)⟩
  let c00 := sampleAt x0 y0
  let c10 := sampleAt x1 y0
  let c01 := sampleAt x0 y1
  let c11 := sampleAt x1 y1
  let c0 := Vec3M.addV ops c00 (Vec3M.smul ops (Vec3M.subV ops c10 c00) tx)
  let c1 := Vec3M.addV ops c01 (Vec3M.smul ops (Vec3M.subV ops c11 c01) tx)
  Vec3M.addV ops c0 (Vec3M.smul ops (Vec3M.subV ops c1 c0) ty)

/-- FloatToHalf (SkyboxRenderer.cpp lines 110-140), acting on the 32-bit
IEEE bit pattern of the value: extract sign, rebiased exponent and
mantissa, then round to the IEEE half encoding with the denormal and
infinity branches of the source. -/
def floatToHalf (ops : ScalarOps α) (value : α) : Nat :=
  let bits := ops.bits value % 2 ^ 32
  let sign := (bits >>> 16) &&& 0x8000
  let exponent : Int := (((bits >>> 23) &&& 0xFF : Nat) : Int) - 127 + 15
  let mantissa := bits &&& 0x7FFFFF
  if exponent ≤ 0 then
    if exponent < -10 then sign % 2 ^ 16
    else
      let mantissa := mantissa ||| 0x800000
      let shift : Nat := (1 - exponent).toNat
      let halfMantissa := mantissa >>> (shift + 13)
      (sign ||| halfMantissa) % 2 ^ 16
  else if 31 ≤ exponent then (sign ||| 0x7C00) % 2 ^ 16
  else
    let halfExponent := (exponent.toNat <<< 10) % 2 ^ 16
    let halfMantissa := mantissa >>> 13
    (sign ||| halfExponent ||| halfMantissa) % 2 ^ 16

/-- The face direction vector for face f at plane coordinates (a, b)
(SkyboxRenderer.cpp lines 358-385, faces +X,-X,+Y,-Y,+Z,-Z). -/
def faceDirection (ops : ScalarOps α) (face : Nat) (a b : α) : Vec3M α :=
  let one := ops.ofInt 1
  let negOne := ops.ofInt (-1)
  let na := ops.sub (ops.ofInt 0) a
  let nb := ops.sub (ops.ofInt 0) b
  match face with
  | 0 => ⟨one, nb, na⟩
  | 1 => ⟨negOne, nb, a⟩
  | 2 => ⟨a, one, b⟩
  | 3 => ⟨a, negOne, nb⟩
  | 4 => ⟨a, nb, one⟩
  | _ => ⟨na, nb, negOne⟩

/-- The four half-float components written for pixel (face, y, x)
(SkyboxRenderer.cpp lines 353-403): project the pixel center onto the
face plane, normalize the direction, convert to spherical UV, sample the
equirectangular image and encode RGBA with alpha 1. -/
def cellValue (ops : ScalarOps α) (img : HdrImageM α) (faceSize : Nat)
    (t : Nat × Nat × Nat) : Nat × Nat × Nat × Nat :=
  let face := t.1
  let y := t.2.1
  let x := t.2.2
  let fs := ops.ofInt (faceSize : Int)
  let u := ops.div (ops.add (ops.ofInt (x : Int)) ops.half) fs
  let v := ops.div (ops.add (ops.ofInt (y : Int)) ops.half) fs
  let a := ops.sub (ops.mul (ops.ofInt 2) u) (ops.ofInt 1)
  let b := ops.sub (ops.mul (ops.ofInt 2) v) (ops.ofInt 1)
  let dir := Vec3M.normalized ops (faceDirection ops face a b)
  let theta := ops.atan2Op dir.z dir.x
  let phi := ops.acosOp (clampOp ops dir.y (ops.ofInt (-1)) (ops.ofInt 1))
  let uEq := ops.div (ops.add theta ops.pi) (ops.mul (ops.ofInt 2) ops.pi)
  let vEq := ops.div phi ops.pi
  let color := sampleEquirectangular ops img uEq vEq
  (floatToHalf ops color.x, floatToHalf ops color.y, floatToHalf ops color.z,
   floatToHalf ops (ops.ofInt 1))

/-- The linear output offset of pixel (face, y, x): four uint16 components
per pixel, faces laid out consecutively. -/
def pixelIndex (faceSize : Nat) (t : Nat × Nat × Nat) : Nat :=
  (t.1 * (faceSize * faceSize) + t.2.1 * faceSize + t.2.2) * 4

/-- Writing the four components of one pixel into the staging buffer. -/
def writeCell (buf : List Nat) (p : Nat) (v : Nat × Nat × Nat × Nat) : List Nat :=
  (((buf.set p v.1).set (p + 1) v.2.1).set (p + 2) v.2.2.1).set (p + 3) v.2.2.2

/-- The (face, y, x) triples of the three nested loops of ConvertToCubemap
in execution order: face outermost, then y, then x. -/
def faceTriples (faceSize : Nat) : List (Nat × Nat × Nat) :=
  (List.range 6).flatMap fun face =>
    (List.range faceSize).flatMap fun y =>
      (List.range faceSize).map fun x => (face, y, x)

/-- std::vector::resize: keep the first n elements, pad with
value-initialized (zero) elements. -/
def listResize (l : List Nat) (n : Nat) : List Nat :=
  l.take n ++ List.replicate (n - l.length) 0

/-- ConvertToCubemap (SkyboxRenderer.cpp lines 334-409): fail on an empty
source image, otherwise resize the staging buffer to 6 faces of
faceSize x faceSize RGBA half floats and fill every pixel of every face. -/
def convertToCubemap (ops : ScalarOps α) (img : HdrImageM α) (faceSize : Nat)
    (outData : List Nat) : Option (List Nat) :=
  if img.width = 0 ∨ img.height = 0 then none
  else
    let facePixels := faceSize * faceSize
    let buf := listResize outData (facePixels * 6 * 4)
    some ((faceTriples faceSize).foldl
      (fun b t => writeCell b (pixelIndex faceSize t) (cellValue ops img faceSize t)) buf)

/-! ## Sample states used by the witnesses -/

/-- A renderer state as it stands after successful creation: non-null
handles, allocated command buffers, shadow layout not yet initialized. -/
def sampleRenderer : RendererState :=
  { swapchain := 1
    renderPass := 2
    commandBufferCount := 3
    shadowLayoutInitialized := false
    inFlightFenceSignaled := true
    renderItems := []
    swapchainExtent := ⟨1280, 720⟩
    cameraPresent := true
    skyboxReady := true
    skyboxVertexBufferHandle := 7 }

/-- An engine state whose swapchain extent is zero-width (minimized). -/
def sampleEngineZero : EngineState :=
  { swapchainExtent := ⟨0, 720⟩
    renderer := sampleRenderer
    renderItems := []
    overlayTimingSet := false }

/-- A frame-host oracle where acquisition and submission succeed. -/
def sampleHost : FrameHost :=
  { acquireResult := AcquireResult.success, submitOk := true }

/-- An item whose mesh pointer is null or whose mesh has zero vertices. -/
def NullOrEmptyItem (it : RenderItemM) : Prop :=
  it.meshPtr = none ∨ ∃ m, it.meshPtr = some m ∧ m.vertexCount = 0

/-- A recreate oracle where every step succeeds. -/
def sampleRecreateEnv : RecreateEnv :=
  { depthOk := true, colorOk := true, framebuffersOk := true,
    skyboxRecreateOk := true, commandPoolOk := true, commandBuffersOk := true }

/-- A fully created renderer resource state (every id = 1). -/
def sampleResources : RendererResources :=
  { descriptorSetLayout := 1, uniformBuffer := 1, descriptorPool := 1,
    shadowResources := 1, shadowRenderPass := 1, textureResources := 1,
    descriptorSet := 1, pipelineSet := 1, skyboxPipeline := 1, cubeMesh := 1,
    depthResources := 1, colorResources := 1, framebuffers := 1,
    commandPool := 1, commandBuffers := 1, syncObjects := 1 }

/-- A concrete driver oracle on which swapchain creation succeeds. -/
def sampleSwapHostOk : SwapchainHost :=
  { capabilitiesResult := some
      { currentExtent := ⟨UINT32_MAX, 0⟩
        minImageExtent := ⟨100, 100⟩
        maxImageExtent := ⟨2000, 2000⟩
        minImageCount := 2
        maxImageCount := 3 }
    formats := [⟨VK_FORMAT_B8G8R8A8_UNORM, 0⟩]
    presentModes := [VkPresentMode.fifo]
    createSwapchainResult := some 5
    swapchainImages := [10, 11]
    viewResult := fun i => some (20 + i) }

/-- The capabilities reported by sampleSwapHostOk. -/
def sampleCaps : VkSurfaceCapabilities :=
  { currentExtent := ⟨UINT32_MAX, 0⟩
    minImageExtent := ⟨100, 100⟩
    maxImageExtent := ⟨2000, 2000⟩
    minImageCount := 2
    maxImageCount := 3 }

/-- A driver oracle where the second vkCreateImageView call fails. -/
def sampleSwapHostViewFail : SwapchainHost :=
  { capabilitiesResult := some sampleCaps
    formats := [⟨VK_FORMAT_B8G8R8A8_UNORM, 0⟩]
    presentModes := [VkPresentMode.fifo]
    createSwapchainResult := some 5
    swapchainImages := [10, 11]
    viewResult := fun i => if i = 0 then some 20 else none }

/-- The catalog text of claim C7:
default = desert, then desert = sky.hdr with size 256. -/
def catalogLinesC7 : List (List Char) :=
  ["default = desert".toList, "desert = sky.hdr; size=256".toList]

/-- Byte-wise lexicographic order on names, stated from the claim (the
order std::map of std::string would use); the claim asserts the fallback
default is the smallest defined name under this order. -/
def lexLt : List Char → List Char → Bool
  | [], [] => false
  | [], _ :: _ => true
  | _ :: _, [] => false
  | a :: as, b :: bs =>
    if a.toNat < b.toNat then true
    else if b.toNat < a.toNat then false
    else lexLt as bs

/-- The catalog text of claim C10: two entries, no default line, with the
second entry name lexicographically smaller than the first. -/
def catalogLinesC10 : List (List Char) :=
  ["b = b.hdr".toList, "a = a.hdr".toList]

/-- The pixel offsets of a triple list are consecutive: the list writes
pixels 4k, 4(k+1), ... in order. The nested loops of ConvertToCubemap
enumerate exactly such a list, which is what makes the staging buffer
fully overwritten. -/
def Sequential (fs : Nat) : List (Nat × Nat × Nat) → Nat → Prop
  | [], _ => True
  | t :: ts, k => pixelIndex fs t = 4 * k ∧ Sequential fs ts (k + 1)

/-- Commands that the per-item loops and per-stage recorders may emit:
binds, push constants, viewport state and draws; never a barrier, a
render-pass boundary or a synchronization operation. -/
def isStageCmd : GpuCmd → Bool
  | GpuCmd.bindPipeline _ => true
  | GpuCmd.bindDescriptorSets => true
  | GpuCmd.setViewport => true
  | GpuCmd.setScissor => true
  | GpuCmd.bindVertexBuffer _ => true
  | GpuCmd.pushConstantsShadow => true
  | GpuCmd.pushConstantsWorld _ => true
  | GpuCmd.pushConstantsSkybox => true
  | GpuCmd.bindIndexBuffer _ => true
  | GpuCmd.draw _ => true
  | GpuCmd.drawIndexed _ => true
  | _ => false

/-- The shape claim C1 requires of one recorded frame: exactly two shadow
barriers; the first one, whose old layout is undefined on the first frame
and shader-readable afterwards, makes the image attachment-writable and
precedes the shadow pass; the second one returns it to shader-readable
after the shadow pass and before the main pass begins. -/
def ShadowCycleShape (firstFrame : Bool) (t : List GpuCmd) : Prop :=
  ∃ p₁ p₂ p₃,
    t = p₁ ++ GpuCmd.pipelineBarrier
          (if firstFrame then ImageLayout.undefinedLayout
           else ImageLayout.depthStencilReadOnlyOptimal)
          ImageLayout.depthStencilAttachmentOptimal ::
        (p₂ ++ GpuCmd.pipelineBarrier ImageLayout.depthStencilAttachmentOptimal
          ImageLayout.depthStencilReadOnlyOptimal :: p₃) ∧
    barriersOf p₁ = [] ∧ barriersOf p₂ = [] ∧ barriersOf p₃ = [] ∧
    GpuCmd.beginRenderPass PassKind.shadowPass ∈ p₂ ∧
    GpuCmd.endRenderPass PassKind.shadowPass ∈ p₂ ∧
    GpuCmd.beginRenderPass PassKind.shadowPass ∉ p₁ ∧
    GpuCmd.beginRenderPass PassKind.mainPass ∉ p₁ ∧
    GpuCmd.beginRenderPass PassKind.mainPass ∉ p₂ ∧
    GpuCmd.beginRenderPass PassKind.mainPass ∈ p₃

/-! ## Claim theorems -/

/-- Claim C2: when the current swapchain extent has a zero side, the tick
is skipped before any recording: no command is emitted (so no render pass
is begun), no frame is drawn, and the renderer state, in particular the
in-flight fence, is exactly what it was before the tick. -/
theorem C2_zero_extent_skips_fence_and_recording (host : FrameHost) (e : EngineState)
    (hzero : e.swapchainExtent.width = 0 ∨ e.swapchainExtent.height = 0) :
    (tickRender host e).2.1 = [] ∧ (tickRender host e).2.2 = false ∧
    (tickRender host e).1.renderer = e.renderer ∧
    (tickRender host e).1.renderer.inFlightFenceSignaled =
      e.renderer.inFlightFenceSignaled := by
  rcases hzero with hw | hh
  · simp [tickRender, hw]
  · simp [tickRender, hh]

/-- Witness for C2 at a concrete minimized engine state. -/
theorem C2_zero_extent_skips_fence_and_recording_witness :
    (tickRender sampleHost sampleEngineZero).2.1 = [] ∧
    (tickRender sampleHost sampleEngineZero).2.2 = false ∧
    (tickRender sampleHost sampleEngineZero).1.renderer = sampleEngineZero.renderer ∧
    (tickRender sampleHost sampleEngineZero).1.renderer.inFlightFenceSignaled =
      sampleEngineZero.renderer.inFlightFenceSignaled :=
  C2_zero_extent_skips_fence_and_recording sampleHost sampleEngineZero (Or.inl rfl)

/-- Claim C6: device bootstrap picks a discrete GPU whenever one is
enumerated, otherwise the first enumerated device, and creates no logical
device when no enumerated device exposes a graphics-capable queue
family. -/
theorem C6_device_selection (devices : List PhysicalDevice) (vkOk : Bool) :
    ((∃ d ∈ devices, d.devType = VkPhysicalDeviceType.discreteGpu) →
      ∃ d, pickPhysicalDevice devices = some d ∧
        d.devType = VkPhysicalDeviceType.discreteGpu) ∧
    (devices ≠ [] →
      (∀ d ∈ devices, d.devType ≠ VkPhysicalDeviceType.discreteGpu) →
      pickPhysicalDevice devices = devices.head?) ∧
    ((∀ d ∈ devices, findGraphicsQueueFamily d = none) →
      vulkanDeviceCreate devices vkOk = none) := by
  refine ⟨?_, ?_, ?_⟩
  · rintro ⟨d, hd, hdisc⟩
    cases devices with
    | nil => cases hd
    | cons a as =>
      have hsome : ((a :: as).find?
          (fun c => decide (c.devType = VkPhysicalDeviceType.discreteGpu))).isSome := by
        rw [List.find?_isSome]
        exact ⟨d, hd, by simp [hdisc]⟩
      rcases Option.isSome_iff_exists.mp hsome with ⟨c, hc⟩
      refine ⟨c, ?_, ?_⟩
      · simp [pickPhysicalDevice, hc]
      · have := List.find?_some hc
        simpa using this
  · intro hne hall
    cases devices with
    | nil => exact absurd rfl hne
    | cons a as =>
      have hnone : (a :: as).find?
          (fun c => decide (c.devType = VkPhysicalDeviceType.discreteGpu)) = none := by
        rw [List.find?_eq_none]
        intro x hx
        simp [hall x hx]
      simp [pickPhysicalDevice, hnone]
  · intro hall
    cases hpick : pickPhysicalDevice devices with
    | none => simp [vulkanDeviceCreate, hpick]
    | some picked =>
      have hmem : picked ∈ devices := by
        cases devices with
        | nil => simp [pickPhysicalDevice] at hpick
        | cons a as =>
          simp only [pickPhysicalDevice] at hpick
          cases hfind : (a :: as).find?
              (fun c => decide (c.devType = VkPhysicalDeviceType.discreteGpu)) with
          | none =>
            rw [hfind] at hpick
            simp at hpick
            subst hpick
            exact List.mem_cons_self _ _
          | some c =>
            rw [hfind] at hpick
            simp at hpick
            subst hpick
            exact List.mem_of_find?_eq_some hfind
      simp [vulkanDeviceCreate, hpick, hall picked hmem]

/-- Witness for C6: one integrated and one discrete device, where the
discrete one is picked; a device list with no graphics family, where
creation fails. -/
theorem C6_device_selection_witness :
    (∃ d, pickPhysicalDevice
        [⟨VkPhysicalDeviceType.integratedGpu, [1]⟩,
         ⟨VkPhysicalDeviceType.discreteGpu, [1]⟩] = some d ∧
      d.devType = VkPhysicalDeviceType.discreteGpu) ∧
    vulkanDeviceCreate [⟨VkPhysicalDeviceType.discreteGpu, [0, 4]⟩] true = none :=
  ⟨(C6_device_selection _ true).1
      ⟨⟨VkPhysicalDeviceType.discreteGpu, [1]⟩, by decide, rfl⟩,
   (C6_device_selection [⟨VkPhysicalDeviceType.discreteGpu, [0, 4]⟩] true).2.2
      (by decide)⟩

/-- Claim C9: items with a null mesh pointer or a zero vertex count are
skipped by both the shadow-pass loop and the opaque stage before any mesh
field is used: each such item contributes no commands at all, so a list of
only such items records zero draw calls in either pass. -/
theorem C9_null_or_empty_items_record_no_draws (items : List RenderItemM)
    (h : ∀ it ∈ items, NullOrEmptyItem it) :
    (∀ it ∈ items, shadowItemCmds it = [] ∧ opaqueItemCmds it = []) ∧
    items.flatMap shadowItemCmds = [] ∧
    drawsOf (items.flatMap shadowItemCmds) = [] ∧
    drawsOf (recordOpaqueStage items) = [] := by
  have hitem : ∀ it ∈ items, shadowItemCmds it = [] ∧ opaqueItemCmds it = [] := by
    intro it hit
    rcases h it hit with hnone | ⟨m, hsome, hzero⟩
    · constructor <;> simp [shadowItemCmds, opaqueItemCmds, hnone]
    · constructor <;> simp [shadowItemCmds, opaqueItemCmds, hsome, hzero]
  have hshadow : items.flatMap shadowItemCmds = [] := by
    rw [List.flatMap_eq_nil_iff]
    intro it hit
    exact (hitem it hit).1
  have hopaque : items.flatMap opaqueItemCmds = [] := by
    rw [List.flatMap_eq_nil_iff]
    intro it hit
    exact (hitem it hit).2
  refine ⟨hitem, hshadow, ?_, ?_⟩
  · rw [hshadow]; rfl
  · simp [recordOpaqueStage, hopaque, drawsOf]

/-- Witness for C9 at a concrete list holding a null-mesh item and a
zero-vertex item. -/
theorem C9_null_or_empty_items_record_no_draws_witness :
    drawsOf ([(⟨none⟩ : RenderItemM),
              ⟨some ⟨4, 5, 0, 9, true⟩⟩].flatMap shadowItemCmds) = [] ∧
    drawsOf (recordOpaqueStage [(⟨none⟩ : RenderItemM),
              ⟨some ⟨4, 5, 0, 9, true⟩⟩]) = [] :=
  let hres := C9_null_or_empty_items_record_no_draws
    [⟨none⟩, ⟨some ⟨4, 5, 0, 9, true⟩⟩]
    (by
      intro it hit
      simp only [List.mem_cons, List.not_mem_nil, or_false] at hit
      rcases hit with rfl | rfl
      · exact Or.inl rfl
      · exact Or.inr ⟨_, rfl, rfl⟩)
  ⟨hres.2.2.1, hres.2.2.2⟩

/-- Claim C4: a successful VulkanRenderer::Recreate (the ordinary-resize
path) replaces the depth resources, color resources, framebuffers and
command buffers with fresh ones, while the three-pipeline set and the
shadow render pass (and the shadow resources generally) keep exactly the
handles built at first creation; and VulkanRenderer::Create does build the
pipeline set and the shadow render pass. -/
theorem C4_resize_rebuilds_attachments_not_pipelines
    (env : RecreateEnv) (r r' : RendererResources) (n n' : Nat)
    (hids : IdsBelow r n) (hpos : 0 < n)
    (hrec : vulkanRendererRecreate env r n = (true, r', n')) :
    (r'.depthResources ≠ r.depthResources ∧ r'.depthResources ≠ 0) ∧
    (r'.colorResources ≠ r.colorResources ∧ r'.colorResources ≠ 0) ∧
    (r'.framebuffers ≠ r.framebuffers ∧ r'.framebuffers ≠ 0) ∧
    (r'.commandBuffers ≠ r.commandBuffers ∧ r'.commandBuffers ≠ 0) ∧
    r'.pipelineSet = r.pipelineSet ∧
    r'.shadowRenderPass = r.shadowRenderPass ∧
    r'.shadowResources = r.shadowResources ∧
    (∀ (envC : RendererCreateEnv) (s : RendererResources) (m m' : Nat)
        (out : RendererResources), vulkanRendererCreate envC s m = (true, out, m') →
      out.pipelineSet ≠ 0 ∧ out.shadowRenderPass ≠ 0) := by
  obtain ⟨hd, hc, hf, hcp, hcb, hp, hsrp, hsr, hsky⟩ := hids
  unfold vulkanRendererRecreate at hrec
  by_cases h1 : env.depthOk
  all_goals simp [h1] at hrec
  by_cases h2 : env.colorOk
  all_goals simp [h2] at hrec
  by_cases h3 : env.framebuffersOk
  all_goals simp [h3] at hrec
  by_cases h4 : env.skyboxRecreateOk
  all_goals simp [h4] at hrec
  by_cases h5 : env.commandPoolOk
  all_goals simp [h5] at hrec
  by_cases h6 : env.commandBuffersOk
  all_goals simp [h6] at hrec
  obtain ⟨hr', _⟩ := hrec
  subst hr'
  refine ⟨⟨by simp <;> omega, by simp <;> omega⟩, ⟨by simp <;> omega, by simp <;> omega⟩,
    ⟨by simp <;> omega, by simp <;> omega⟩, ⟨by simp <;> omega, by simp <;> omega⟩,
    by simp, by simp, by simp, ?_⟩
  intro envC s m m' out hcreate
  unfold vulkanRendererCreate at hcreate
  by_cases g1 : envC.descriptorSetLayoutOk
  all_goals simp [g1] at hcreate
  by_cases g2 : envC.uniformBufferOk
  all_goals simp [g2] at hcreate
  by_cases g3 : envC.descriptorPoolOk
  all_goals simp [g3] at hcreate
  by_cases g4 : envC.shadowResourcesOk
  all_goals simp [g4] at hcreate
  by_cases g5 : envC.textureResourcesOk
  all_goals simp [g5] at hcreate
  by_cases g6 : envC.descriptorSetOk
  all_goals simp [g6] at hcreate
  by_cases g7 : envC.pipelineOk
  all_goals simp [g7] at hcreate
  by_cases g8 : envC.skyboxOk
  all_goals simp [g8] at hcreate
  by_cases g9 : envC.cubeMeshOk
  all_goals simp [g9] at hcreate
  by_cases g10 : envC.depthOk
  all_goals simp [g10] at hcreate
  by_cases g11 : envC.colorOk
  all_goals simp [g11] at hcreate
  by_cases g12 : envC.framebuffersOk
  all_goals simp [g12] at hcreate
  by_cases g13 : envC.commandPoolOk
  all_goals simp [g13] at hcreate
  by_cases g14 : envC.commandBuffersOk
  all_goals simp [g14] at hcreate
  by_cases g15 : envC.syncObjectsOk
  all_goals simp [g15] at hcreate
  obtain ⟨hres, _⟩ := hcreate
  rw [← hres]
  constructor <;> simp <;> omega

/-- Witness for C4 at a concrete fully-successful recreate. -/
theorem C4_resize_rebuilds_attachments_not_pipelines_witness :
    (vulkanRendererRecreate sampleRecreateEnv sampleResources 2).2.1.depthResources ≠
      sampleResources.depthResources ∧
    (vulkanRendererRecreate sampleRecreateEnv sampleResources 2).2.1.pipelineSet =
      sampleResources.pipelineSet ∧
    (vulkanRendererRecreate sampleRecreateEnv sampleResources 2).2.1.shadowRenderPass =
      sampleResources.shadowRenderPass :=
  let h := C4_resize_rebuilds_attachments_not_pipelines sampleRecreateEnv sampleResources
    (vulkanRendererRecreate sampleRecreateEnv sampleResources 2).2.1 2
    (vulkanRendererRecreate sampleRecreateEnv sampleResources 2).2.2
    (by unfold IdsBelow; decide) (by decide) (by decide)
  ⟨h.1.1, h.2.2.2.2.1, h.2.2.2.2.2.1⟩

/-- The view loop only appends events: whatever was in the trace before it
stays in the trace it returns. -/
theorem createViewsLoop_mem_events (host : SwapchainHost) :
    ∀ (images : List Nat) (idx : Nat) (s : VulkanSwapchainState)
      (evs : List SwapchainEvent) (e : SwapchainEvent), e ∈ evs →
      e ∈ (VulkanSwapchain.createViewsLoop host images idx s evs).2.2 := by
  intro images
  induction images with
  | nil => intro idx s evs e he; exact he
  | cons img rest ih =>
    intro idx s evs e he
    unfold VulkanSwapchain.createViewsLoop
    cases host.viewResult idx with
    | none => simpa using List.mem_append_left _ he
    | some hv => simpa using ih (idx + 1) _ _ e (List.mem_append_left _ he)

/-- The clamped extent lies within the capability range for well-formed
capabilities. -/
theorem chooseSwapExtent_bounds (caps : VkSurfaceCapabilities) (w h : Nat)
    (hwf : caps.WellFormed) :
    caps.minImageExtent.width ≤ (VulkanSwapchain.chooseSwapExtent caps w h).width ∧
    (VulkanSwapchain.chooseSwapExtent caps w h).width ≤ caps.maxImageExtent.width ∧
    caps.minImageExtent.height ≤ (VulkanSwapchain.chooseSwapExtent caps w h).height ∧
    (VulkanSwapchain.chooseSwapExtent caps w h).height ≤ caps.maxImageExtent.height := by
  obtain ⟨hww, hhh, hcur⟩ := hwf
  unfold VulkanSwapchain.chooseSwapExtent
  split
  · next hsent =>
    obtain ⟨h1, h2, h3, h4⟩ := hcur hsent
    exact ⟨h1, h2, h3, h4⟩
  · simp only
    omega

/-- Claim C3: a successful swapchain creation stores an extent within the
[minImageExtent, maxImageExtent] range reported by well-formed surface
capabilities, and requests an image count of minImageCount + 1 capped at
maxImageCount when that cap is nonzero (the count carried by the
vkCreateSwapchainKHR request event). -/
theorem C3_swapchain_extent_in_range_and_image_count
    (host : SwapchainHost) (caps : VkSurfaceCapabilities) (w h : Nat) (vsync : Bool)
    (s s' : VulkanSwapchainState) (evs : List SwapchainEvent)
    (hcaps : host.capabilitiesResult = some caps)
    (hwf : caps.WellFormed) (hw : 0 < w) (hh : 0 < h)
    (hcr : VulkanSwapchain.create host w h vsync s = (true, s', evs)) :
    (caps.minImageExtent.width ≤ s'.swapchainExtent.width ∧
     s'.swapchainExtent.width ≤ caps.maxImageExtent.width ∧
     caps.minImageExtent.height ≤ s'.swapchainExtent.height ∧
     s'.swapchainExtent.height ≤ caps.maxImageExtent.height) ∧
    VulkanSwapchain.chooseImageCount caps =
      (if caps.maxImageCount = 0 then caps.minImageCount + 1
       else min (caps.minImageCount + 1) caps.maxImageCount) ∧
    ∃ handle, SwapchainEvent.createSwapchain handle
      (VulkanSwapchain.chooseImageCount caps) s'.swapchainExtent ∈ evs := by
  unfold VulkanSwapchain.create at hcr
  rw [hcaps] at hcr
  by_cases hf : host.formats.length = 0
  · simp [hf] at hcr
  simp only [hf, if_false] at hcr
  cases hres : host.createSwapchainResult with
  | none => rw [hres] at hcr; simp at hcr
  | some handle =>
    rw [hres] at hcr
    simp only at hcr
    cases hloop : VulkanSwapchain.createViewsLoop host host.swapchainImages 0
        { s with swapchain := handle, swapchainImageViews := [] }
        [SwapchainEvent.createSwapchain handle (VulkanSwapchain.chooseImageCount caps)
          (VulkanSwapchain.chooseSwapExtent caps w h)] with
    | mk ok rest =>
      obtain ⟨s3, evs3⟩ := rest
      rw [hloop] at hcr
      cases ok with
      | false => simp at hcr
      | true =>
        simp only [Prod.mk.injEq, true_and] at hcr
        obtain ⟨hs', hevs⟩ := hcr
        have hext : s'.swapchainExtent = VulkanSwapchain.chooseSwapExtent caps w h := by
          rw [← hs']
        refine ⟨?_, ?_, ?_⟩
        · rw [hext]
          exact chooseSwapExtent_bounds caps w h hwf
        · unfold VulkanSwapchain.chooseImageCount
          split <;> rename_i hcond <;> simp only <;> split <;> omega
        · refine ⟨handle, ?_⟩
          rw [← hevs, hext]
          have hstart : SwapchainEvent.createSwapchain handle
              (VulkanSwapchain.chooseImageCount caps)
              (VulkanSwapchain.chooseSwapExtent caps w h) ∈
              [SwapchainEvent.createSwapchain handle
                (VulkanSwapchain.chooseImageCount caps)
                (VulkanSwapchain.chooseSwapExtent caps w h)] :=
            List.mem_singleton.mpr rfl
          have := createViewsLoop_mem_events host host.swapchainImages 0
            { s with swapchain := handle, swapchainImageViews := [] } _ _ hstart
          rw [hloop] at this
          exact this

/-- Witness for C3 at a concrete successful creation with a 1280 x 720
request. -/
theorem C3_swapchain_extent_in_range_and_image_count_witness :
    (sampleCaps.minImageExtent.width ≤
      (VulkanSwapchain.create sampleSwapHostOk 1280 720 true
        VulkanSwapchain.initial).2.1.swapchainExtent.width ∧
     (VulkanSwapchain.create sampleSwapHostOk 1280 720 true
        VulkanSwapchain.initial).2.1.swapchainExtent.width ≤
      sampleCaps.maxImageExtent.width ∧
     sampleCaps.minImageExtent.height ≤
      (VulkanSwapchain.create sampleSwapHostOk 1280 720 true
        VulkanSwapchain.initial).2.1.swapchainExtent.height ∧
     (VulkanSwapchain.create sampleSwapHostOk 1280 720 true
        VulkanSwapchain.initial).2.1.swapchainExtent.height ≤
      sampleCaps.maxImageExtent.height) ∧
    VulkanSwapchain.chooseImageCount sampleCaps =
      (if sampleCaps.maxImageCount = 0 then sampleCaps.minImageCount + 1
       else min (sampleCaps.minImageCount + 1) sampleCaps.maxImageCount) ∧
    ∃ handle, SwapchainEvent.createSwapchain handle
      (VulkanSwapchain.chooseImageCount sampleCaps)
      (VulkanSwapchain.create sampleSwapHostOk 1280 720 true
        VulkanSwapchain.initial).2.1.swapchainExtent ∈
      (VulkanSwapchain.create sampleSwapHostOk 1280 720 true
        VulkanSwapchain.initial).2.2 :=
  C3_swapchain_extent_in_range_and_image_count sampleSwapHostOk sampleCaps 1280 720 true
    VulkanSwapchain.initial
    (VulkanSwapchain.create sampleSwapHostOk 1280 720 true VulkanSwapchain.initial).2.1
    (VulkanSwapchain.create sampleSwapHostOk 1280 720 true VulkanSwapchain.initial).2.2
    rfl (by unfold VkSurfaceCapabilities.WellFormed; decide) (by decide) (by decide)
    (by rfl)

/-- createdViews distributes over trace concatenation. -/
theorem createdViews_append (a b : List SwapchainEvent) :
    createdViews (a ++ b) = createdViews a ++ createdViews b :=
  List.filterMap_append a b _

/-- destroyedViews distributes over trace concatenation. -/
theorem destroyedViews_append (a b : List SwapchainEvent) :
    destroyedViews (a ++ b) = destroyedViews a ++ destroyedViews b :=
  List.filterMap_append a b _

/-- The destroy-view events of VulkanSwapchain::Destroy create nothing. -/
theorem createdViews_of_destroy (l : List Nat) :
    createdViews (l.filterMap fun v =>
      if v ≠ 0 then some (SwapchainEvent.destroyImageView v) else none) = [] := by
  induction l with
  | nil => rfl
  | cons v vs ih =>
    by_cases hv : v = 0
    · simpa [createdViews, hv] using ih
    · simpa [createdViews, hv] using ih

/-- Destroying a swapchain state whose views are all non-null emits exactly
one destroy event per held view, in order. -/
theorem destroyedViews_of_destroy (l : List Nat) (hall : ∀ v ∈ l, v ≠ 0) :
    destroyedViews (l.filterMap fun v =>
      if v ≠ 0 then some (SwapchainEvent.destroyImageView v) else none) = l := by
  induction l with
  | nil => rfl
  | cons v vs ih =>
    have hv : v ≠ 0 := hall v (List.mem_cons_self v vs)
    have hrest : ∀ x ∈ vs, x ≠ 0 := fun x hx => hall x (List.mem_cons_of_mem v hx)
    simpa [destroyedViews, hv] using ih hrest

/-- The optional destroy-swapchain event contributes no view events. -/
theorem viewEvents_of_swapDestroy (c : Prop) [Decidable c] (hdl : Nat) :
    createdViews (if c then [SwapchainEvent.destroySwapchain hdl] else []) = [] ∧
    destroyedViews (if c then [SwapchainEvent.destroySwapchain hdl] else []) = [] := by
  split <;> exact ⟨rfl, rfl⟩

/-- If the view-creation loop fails, the object is left fully torn down
(null swapchain, no views) and, provided the incoming views and every
driver-returned view handle are non-null, the trace ends up destroying
exactly the incoming views plus every view the loop created. -/
theorem createViewsLoop_fail (host : SwapchainHost)
    (hviews : ∀ i hv, host.viewResult i = some hv → hv ≠ 0) :
    ∀ (images : List Nat) (idx : Nat) (s : VulkanSwapchainState)
      (evs : List SwapchainEvent) (s' : VulkanSwapchainState)
      (evs' : List SwapchainEvent),
      VulkanSwapchain.createViewsLoop host images idx s evs = (false, s', evs') →
      (∀ v ∈ s.swapchainImageViews, v ≠ 0) →
      s'.swapchain = 0 ∧ s'.swapchainImageViews = [] ∧
      (∃ nw, createdViews evs' = createdViews evs ++ nw ∧
        destroyedViews evs' = destroyedViews evs ++ (s.swapchainImageViews ++ nw)) ∧
      (s.swapchain ≠ 0 → SwapchainEvent.destroySwapchain s.swapchain ∈ evs') := by
  intro images
  induction images with
  | nil =>
    intro idx s evs s' evs' hloop hall
    simp [VulkanSwapchain.createViewsLoop] at hloop
  | cons img rest ih =>
    intro idx s evs s' evs' hloop hall
    unfold VulkanSwapchain.createViewsLoop at hloop
    cases hres : host.viewResult idx with
    | none =>
      rw [hres] at hloop
      simp only [VulkanSwapchain.destroy, Prod.mk.injEq] at hloop
      obtain ⟨hs', hevs'⟩ := hloop.2
      refine ⟨by rw [← hs'], by rw [← hs'], ⟨[], ?_, ?_⟩, ?_⟩
      · rw [← hevs', createdViews_append, createdViews_append,
          createdViews_of_destroy,
          (viewEvents_of_swapDestroy (s.swapchain ≠ 0) s.swapchain).1]
        simp
      · rw [← hevs', destroyedViews_append, destroyedViews_append,
          destroyedViews_of_destroy s.swapchainImageViews hall,
          (viewEvents_of_swapDestroy (s.swapchain ≠ 0) s.swapchain).2]
      · intro hsw
        rw [← hevs']
        refine List.mem_append_right _ (List.mem_append_right _ ?_)
        simp [hsw]
    | some hv =>
      rw [hres] at hloop
      simp only at hloop
      have hv0 : hv ≠ 0 := hviews idx hv hres
      have hall2 : ∀ v ∈ s.swapchainImageViews ++ [hv], v ≠ 0 := by
        intro v hvmem
        rcases List.mem_append.mp hvmem with hmem | hmem
        · exact hall v hmem
        · rw [List.mem_singleton.mp hmem]; exact hv0
      obtain ⟨h1, h2, ⟨nw, hc, hd⟩, h4⟩ := ih (idx + 1) _ _ s' evs' hloop hall2
      refine ⟨h1, h2, ⟨hv :: nw, ?_, ?_⟩, h4⟩
      · rw [hc]
        simp [createdViews]
      · rw [hd]
        simp [destroyedViews]

/-- Claim C5: when swapchain creation gets as far as creating per-image
views and then fails on one of them, it rolls back: the returned object
state has a null swapchain handle and an empty view list, every image view
created during the call is destroyed (the destroy trace equals the create
trace), and the swapchain handle itself is destroyed. -/
theorem C5_view_failure_rolls_back
    (host : SwapchainHost) (caps : VkSurfaceCapabilities) (handle w h : Nat)
    (vsync : Bool) (s s' : VulkanSwapchainState) (evs : List SwapchainEvent)
    (hcaps : host.capabilitiesResult = some caps)
    (hformats : host.formats.length ≠ 0)
    (hsw : host.createSwapchainResult = some handle) (hh0 : handle ≠ 0)
    (hviews : ∀ i hv, host.viewResult i = some hv → hv ≠ 0)
    (hcr : VulkanSwapchain.create host w h vsync s = (false, s', evs)) :
    s'.swapchain = 0 ∧ s'.swapchainImageViews = [] ∧
    destroyedViews evs = createdViews evs ∧
    SwapchainEvent.destroySwapchain handle ∈ evs := by
  unfold VulkanSwapchain.create at hcr
  rw [hcaps] at hcr
  simp only [hformats, if_false] at hcr
  rw [hsw] at hcr
  simp only at hcr
  cases hloop : VulkanSwapchain.createViewsLoop host host.swapchainImages 0
      { s with swapchain := handle, swapchainImageViews := [] }
      [SwapchainEvent.createSwapchain handle (VulkanSwapchain.chooseImageCount caps)
        (VulkanSwapchain.chooseSwapExtent caps w h)] with
  | mk ok rest =>
    obtain ⟨s3, evs3⟩ := rest
    rw [hloop] at hcr
    cases ok with
    | true => simp at hcr
    | false =>
      simp only [Prod.mk.injEq, true_and] at hcr
      obtain ⟨hs', hevs⟩ := hcr
      obtain ⟨g1, g2, ⟨nw, gc, gd⟩, g4⟩ := createViewsLoop_fail host hviews
        host.swapchainImages 0 _ _ s3 evs3 hloop (by intro v hv; simp at hv)
      subst hs'
      subst hevs
      refine ⟨g1, g2, ?_, ?_⟩
      · rw [gc, gd]
        simp [createdViews, destroyedViews]
      · exact g4 hh0

/-- Witness for C5 at a concrete creation that fails on the second image
view: the returned state is fully rolled back. -/
theorem C5_view_failure_rolls_back_witness :
    (VulkanSwapchain.create sampleSwapHostViewFail 1280 720 true
      VulkanSwapchain.initial).2.1.swapchain = 0 ∧
    (VulkanSwapchain.create sampleSwapHostViewFail 1280 720 true
      VulkanSwapchain.initial).2.1.swapchainImageViews = [] ∧
    destroyedViews (VulkanSwapchain.create sampleSwapHostViewFail 1280 720 true
      VulkanSwapchain.initial).2.2 =
    createdViews (VulkanSwapchain.create sampleSwapHostViewFail 1280 720 true
      VulkanSwapchain.initial).2.2 ∧
    SwapchainEvent.destroySwapchain 5 ∈
      (VulkanSwapchain.create sampleSwapHostViewFail 1280 720 true
        VulkanSwapchain.initial).2.2 :=
  C5_view_failure_rolls_back sampleSwapHostViewFail sampleCaps 5 1280 720 true
    VulkanSwapchain.initial
    (VulkanSwapchain.create sampleSwapHostViewFail 1280 720 true
      VulkanSwapchain.initial).2.1
    (VulkanSwapchain.create sampleSwapHostViewFail 1280 720 true
      VulkanSwapchain.initial).2.2
    rfl (by decide) rfl (by decide)
    (by
      intro i hv hres
      by_cases hi : i = 0
      · simp [sampleSwapHostViewFail, hi] at hres
        omega
      · simp [sampleSwapHostViewFail, hi] at hres)
    (by rfl)

/-- Claim C7: parsing the two-line catalog yields default entry desert
with Size 256 and an HdrPath ending in sky.hdr (for any assets root and
path separator); blank lines and #-comment lines never change the parser
state; and a missing catalog file makes skybox creation fail. -/
theorem C7_catalog_parse (root sep : List Char)
    (ord : List (List Char × SkyboxDefinition) → List (List Char × SkyboxDefinition)) :
    (∃ st, loadCatalog root sep ord (some catalogLinesC7) = some st ∧
      st.defaultSkyboxName = "desert".toList ∧
      ∃ defn, mapFind st.skyboxes st.defaultSkyboxName = some defn ∧
        defn.size = 256 ∧ "sky.hdr".toList <:+ defn.hdrPath) ∧
    (∀ (st : CatalogState) (line : List Char),
      trimChars line = [] ∨ (trimChars line).head? = some '#' →
      processLine root sep st line = st) ∧
    (∀ env : SkyboxCreateEnv, env.catalogLines = none →
      skyboxRendererCreate env root sep ord = false) := by
  have hdrne : ((root ++ sep ++ "sky.hdr".toList).isEmpty) = false := by
    cases hl : root ++ sep ++ "sky.hdr".toList with
    | nil =>
      rcases List.append_eq_nil.mp hl with ⟨-, h4⟩
      simp at h4
    | cons a as => rfl
  refine ⟨?_, ?_, ?_⟩
  · refine ⟨⟨[("desert".toList,
        ⟨"desert".toList, root ++ sep ++ "sky.hdr".toList, 256⟩)],
        "desert".toList⟩, ?_, rfl, ?_⟩
    · have h2 : processLine root sep ⟨[], "desert".toList⟩
          ("desert = sky.hdr; size=256".toList) =
          ⟨[("desert".toList,
             ⟨"desert".toList, root ++ sep ++ "sky.hdr".toList, 256⟩)],
           "desert".toList⟩ := by
        have hstep : processLine root sep ⟨[], "desert".toList⟩
            ("desert = sky.hdr; size=256".toList) =
            if (root ++ sep ++ "sky.hdr".toList).isEmpty = true then
              ⟨[], "desert".toList⟩
            else
              ⟨[("desert".toList,
                 ⟨"desert".toList, root ++ sep ++ "sky.hdr".toList, 256⟩)],
               "desert".toList⟩ := rfl
        rw [hstep, hdrne]
        simp
      show loadCatalog root sep ord (some catalogLinesC7) = _
      unfold loadCatalog catalogLinesC7
      simp only [List.foldl_cons, List.foldl_nil]
      have h1 : processLine root sep ⟨[], []⟩ ("default = desert".toList) =
          ⟨[], "desert".toList⟩ := rfl
      rw [h1, h2]
      rfl
    · refine ⟨⟨"desert".toList, root ++ sep ++ "sky.hdr".toList, 256⟩, rfl, rfl, ?_⟩
      exact List.suffix_append (root ++ sep) _
  · intro st line hline
    rcases hline with hempty | hhash
    · simp [processLine, hempty]
    · cases htr : trimChars line with
      | nil => rw [htr] at hhash; cases hhash
      | cons c cs =>
        rw [htr] at hhash
        simp only [List.head?_cons, Option.some.injEq] at hhash
        subst hhash
        simp [processLine, htr]
  · intro env henv
    cases hroot : env.assetsRootFound with
    | false => simp [skyboxRendererCreate, hroot]
    | true => simp [skyboxRendererCreate, hroot, henv, loadCatalog]

/-- Witness for C7 at a concrete assets root and separator. -/
theorem C7_catalog_parse_witness :
    ∃ st, loadCatalog "Assets/Ready".toList "/".toList id (some catalogLinesC7) = some st ∧
      st.defaultSkyboxName = "desert".toList ∧
      ∃ defn, mapFind st.skyboxes st.defaultSkyboxName = some defn ∧
        defn.size = 256 ∧ "sky.hdr".toList <:+ defn.hdrPath :=
  (C7_catalog_parse "Assets/Ready".toList "/".toList id).1

/-- Counterexample to claim C10 as stated: with no default line the load
succeeds, but the selected default is the first entry in the unordered
container iteration order, not the lexicographically smallest name. The
identity order used here (insertion order) is a legal iteration order of
std::unordered_map, whose order the C++ standard leaves unspecified; under
it the catalog b before a selects b although a is defined and smaller. -/
theorem C10_counterexample :
    ∃ st, loadCatalog [] [] id (some catalogLinesC10) = some st ∧
      st.defaultSkyboxName = "b".toList ∧
      "a".toList ∈ st.skyboxes.map Prod.fst ∧
      lexLt "a".toList "b".toList = true ∧
      st.defaultSkyboxName ≠ "a".toList :=
  ⟨⟨[("b".toList, ⟨"b".toList, "b.hdr".toList, 512⟩),
     ("a".toList, ⟨"a".toList, "a.hdr".toList, 512⟩)], "b".toList⟩,
   by rfl, rfl, by decide, by decide, by decide⟩

/-- Claim C10 as amended: whenever the parsed catalog defines at least one
entry, loading succeeds even without a valid default line, and the default
silently becomes some defined entry, namely the first in the unordered
container iteration order (an unspecified order, not necessarily the
lexicographically smallest name). -/
theorem C10_amended_fallback_default (root sep : List Char)
    (lines : List (List Char))
    (ord : List (List Char × SkyboxDefinition) → List (List Char × SkyboxDefinition))
    (hord : ∀ m, (ord m).Perm m)
    (hne : (lines.foldl (processLine root sep)
      ⟨[], []⟩ : CatalogState).skyboxes ≠ []) :
    ∃ st, loadCatalog root sep ord (some lines) = some st ∧
      st.skyboxes = (lines.foldl (processLine root sep) ⟨[], []⟩ : CatalogState).skyboxes ∧
      st.defaultSkyboxName ∈ st.skyboxes.map Prod.fst := by
  unfold loadCatalog
  simp only
  set st0 : CatalogState := lines.foldl (processLine root sep) ⟨[], []⟩ with hst0
  have hempty : st0.skyboxes.isEmpty = false := by
    cases hsk : st0.skyboxes with
    | nil => exact absurd hsk hne
    | cons a as => rfl
  rw [hempty]
  simp only [Bool.false_eq_true, if_false]
  by_cases hcond : st0.defaultSkyboxName.isEmpty = true ∨
      mapFind st0.skyboxes st0.defaultSkyboxName = none
  · simp only [hcond, if_true]
    cases hordres : ord st0.skyboxes with
    | nil =>
      have hlen := (hord st0.skyboxes).length_eq
      rw [hordres] at hlen
      cases hsk : st0.skyboxes with
      | nil => exact absurd hsk hne
      | cons a as => rw [hsk] at hlen; simp at hlen
    | cons kv t =>
      have hmem : kv ∈ st0.skyboxes := by
        have : kv ∈ ord st0.skyboxes := by rw [hordres]; exact List.mem_cons_self kv t
        exact (hord st0.skyboxes).mem_iff.mp this
      refine ⟨_, rfl, rfl, ?_⟩
      exact List.mem_map.mpr ⟨kv, hmem, rfl⟩
  · simp only [hcond, if_false]
    refine ⟨st0, rfl, rfl, ?_⟩
    push_neg at hcond
    obtain ⟨_, hfind⟩ := hcond
    cases hf : mapFind st0.skyboxes st0.defaultSkyboxName with
    | none => exact absurd hf hfind
    | some defn =>
      unfold mapFind at hf
      cases hfq : st0.skyboxes.find? (fun kv => decide (kv.fst = st0.defaultSkyboxName)) with
      | none => rw [hfq] at hf; cases hf
      | some kv =>
        have hmem := List.mem_of_find?_eq_some hfq
        have hpred := List.find?_some hfq
        simp only [decide_eq_true_eq] at hpred
        exact List.mem_map.mpr ⟨kv, hmem, hpred⟩

/-- Witness for the amended C10 at a concrete one-entry catalog with no
default line. -/
theorem C10_amended_fallback_default_witness :
    ∃ st, loadCatalog [] [] id (some ["x = x.hdr".toList]) = some st ∧
      st.skyboxes = ((["x = x.hdr".toList].foldl (processLine [] [])
        ⟨[], []⟩ : CatalogState)).skyboxes ∧
      st.defaultSkyboxName ∈ st.skyboxes.map Prod.fst :=
  C10_amended_fallback_default [] [] ["x = x.hdr".toList] id
    (fun m => List.Perm.refl m) (by decide)

/-- barriersOf distributes over trace concatenation. -/
theorem barriersOf_append (a b : List GpuCmd) :
    barriersOf (a ++ b) = barriersOf a ++ barriersOf b :=
  List.filterMap_append a b _

/-- The shadow-loop body of one item emits only stage commands. -/
theorem shadowItemCmds_all_stage (it : RenderItemM) :
    (shadowItemCmds it).all isStageCmd = true := by
  cases hm : it.meshPtr with
  | none => simp [shadowItemCmds, hm]
  | some m =>
    simp only [shadowItemCmds, hm]
    split_ifs <;> simp [isStageCmd]

/-- The opaque-loop body of one item emits only stage commands. -/
theorem opaqueItemCmds_all_stage (it : RenderItemM) :
    (opaqueItemCmds it).all isStageCmd = true := by
  cases hm : it.meshPtr with
  | none => simp [opaqueItemCmds, hm]
  | some m =>
    simp only [opaqueItemCmds, hm]
    split_ifs <;> simp [isStageCmd]

/-- A flat-mapped loop whose body emits only stage commands emits only
stage commands. -/
theorem flatMap_all_stage (items : List RenderItemM) (f : RenderItemM → List GpuCmd)
    (h : ∀ it, (f it).all isStageCmd = true) :
    (items.flatMap f).all isStageCmd = true := by
  rw [List.all_eq_true]
  intro c hc
  rcases List.mem_flatMap.mp hc with ⟨it, _, hcf⟩
  exact List.all_eq_true.mp (h it) c hcf

/-- The skybox stage emits only stage commands. -/
theorem recordSkyboxStage_all_stage (cp sr : Bool) (vb : Nat) (e : VkExtent2D) :
    (recordSkyboxStage cp sr vb e).all isStageCmd = true := by
  unfold recordSkyboxStage
  split_ifs <;> simp [isStageCmd]

/-- The opaque stage emits only stage commands. -/
theorem recordOpaqueStage_all_stage (items : List RenderItemM) :
    (recordOpaqueStage items).all isStageCmd = true := by
  unfold recordOpaqueStage
  simp only [List.all_cons, isStageCmd, Bool.true_and]
  exact flatMap_all_stage items _ opaqueItemCmds_all_stage

/-- A trace of stage commands contains no barriers. -/
theorem barriersOf_of_all_stage (t : List GpuCmd) (h : t.all isStageCmd = true) :
    barriersOf t = [] := by
  induction t with
  | nil => rfl
  | cons c cs ih =>
    rw [List.all_cons, Bool.and_eq_true] at h
    have hcs := ih h.2
    have hc := h.1
    cases c
    case pipelineBarrier o n => simp [isStageCmd] at hc
    all_goals simpa [barriersOf, List.filterMap_cons] using hcs

/-- A trace of stage commands begins no render pass. -/
theorem beginPass_not_mem_of_all_stage (t : List GpuCmd) (h : t.all isStageCmd = true)
    (p : PassKind) : GpuCmd.beginRenderPass p ∉ t := by
  intro hmem
  have := List.all_eq_true.mp h _ hmem
  simp [isStageCmd] at this

/-- The full recorded contents of one frame, with any barrier-free,
pass-free prefix and any barrier-free tail, have the shadow-cycle shape;
the first-frame flag is the negation of the shadow-layout flag at
recording time. -/
theorem frame_trace_shape (s : RendererState) (pre post : List GpuCmd)
    (hpre1 : barriersOf pre = [])
    (hpre2 : GpuCmd.beginRenderPass PassKind.shadowPass ∉ pre)
    (hpre3 : GpuCmd.beginRenderPass PassKind.mainPass ∉ pre)
    (hpost : barriersOf post = []) :
    ShadowCycleShape (!s.shadowLayoutInitialized)
      (pre ++ recordedFrameCmds s ++ post) := by
  have hflat : (s.renderItems.flatMap shadowItemCmds).all isStageCmd = true :=
    flatMap_all_stage _ _ shadowItemCmds_all_stage
  have hsky := recordSkyboxStage_all_stage s.cameraPresent s.skyboxReady
    s.skyboxVertexBufferHandle s.swapchainExtent
  have hop := recordOpaqueStage_all_stage s.renderItems
  cases hinit : s.shadowLayoutInitialized <;>
  · refine ⟨pre ++ [GpuCmd.beginCommandBuffer],
      GpuCmd.beginRenderPass PassKind.shadowPass ::
        GpuCmd.bindPipeline PipelineKind.shadowPipeline ::
        GpuCmd.setViewport :: GpuCmd.setScissor ::
        (s.renderItems.flatMap shadowItemCmds ++
          [GpuCmd.endRenderPass PassKind.shadowPass]),
      GpuCmd.beginRenderPass PassKind.mainPass ::
        GpuCmd.setViewport :: GpuCmd.setScissor ::
        (recordSkyboxStage s.cameraPresent s.skyboxReady
            s.skyboxVertexBufferHandle s.swapchainExtent ++
          (recordOpaqueStage s.renderItems ++
            ([GpuCmd.endRenderPass PassKind.mainPass, GpuCmd.endCommandBuffer] ++ post))),
      ?_, ?_, ?_, ?_, ?_, ?_, ?_, ?_, ?_, ?_⟩
    · simp [recordedFrameCmds, hinit, List.append_assoc]
    · rw [barriersOf_append, hpre1]
      rfl
    · rw [show GpuCmd.beginRenderPass PassKind.shadowPass ::
          GpuCmd.bindPipeline PipelineKind.shadowPipeline ::
          GpuCmd.setViewport :: GpuCmd.setScissor ::
          (s.renderItems.flatMap shadowItemCmds ++
            [GpuCmd.endRenderPass PassKind.shadowPass]) =
          [GpuCmd.beginRenderPass PassKind.shadowPass,
           GpuCmd.bindPipeline PipelineKind.shadowPipeline,
           GpuCmd.setViewport, GpuCmd.setScissor] ++
          (s.renderItems.flatMap shadowItemCmds ++
            [GpuCmd.endRenderPass PassKind.shadowPass]) from rfl,
        barriersOf_append, barriersOf_append,
        barriersOf_of_all_stage _ hflat]
      rfl
    · rw [show GpuCmd.beginRenderPass PassKind.mainPass ::
          GpuCmd.setViewport :: GpuCmd.setScissor ::
          (recordSkyboxStage s.cameraPresent s.skyboxReady
              s.skyboxVertexBufferHandle s.swapchainExtent ++
            (recordOpaqueStage s.renderItems ++
              ([GpuCmd.endRenderPass PassKind.mainPass, GpuCmd.endCommandBuffer] ++ post))) =
          [GpuCmd.beginRenderPass PassKind.mainPass,
           GpuCmd.setViewport, GpuCmd.setScissor] ++
          (recordSkyboxStage s.cameraPresent s.skyboxReady
              s.skyboxVertexBufferHandle s.swapchainExtent ++
            (recordOpaqueStage s.renderItems ++
              ([GpuCmd.endRenderPass PassKind.mainPass, GpuCmd.endCommandBuffer] ++ post))) from rfl,
        barriersOf_append, barriersOf_append, barriersOf_append, barriersOf_append,
        barriersOf_of_all_stage _ hsky, barriersOf_of_all_stage _ hop, hpost]
      rfl
    · simp
    · simp
    · intro hmem
      rcases List.mem_append.mp hmem with hmem | hmem
      · exact hpre2 hmem
      · simp at hmem
    · intro hmem
      rcases List.mem_append.mp hmem with hmem | hmem
      · exact hpre3 hmem
      · simp at hmem
    · intro hmem
      simp only [List.mem_cons, List.mem_append] at hmem
      rcases hmem with h | h | h | h | (h | h)
      · cases h
      · cases h
      · cases h
      · cases h
      · exact beginPass_not_mem_of_all_stage _ hflat _ h
      · simp at h
    · simp

/-- One DrawFrame call either records a frame, with the shadow-cycle shape
whose first-frame flag reflects the state at entry, and leaves the
shadow-layout flag set, or records nothing and leaves the flag alone. -/
theorem drawFrame_dichotomy (host : FrameHost) (s : RendererState) :
    (FrameRecorded (drawFrame host s).2 = true ∧
     (drawFrame host s).1.shadowLayoutInitialized = true ∧
     ShadowCycleShape (!s.shadowLayoutInitialized) (drawFrame host s).2) ∨
    (FrameRecorded (drawFrame host s).2 = false ∧
     (drawFrame host s).1.shadowLayoutInitialized = s.shadowLayoutInitialized) := by
  by_cases hguard : s.swapchain = 0 ∨ s.renderPass = 0 ∨ s.commandBufferCount = 0
  · right
    simp [drawFrame, hguard, FrameRecorded]
  · by_cases hacq : host.acquireResult ≠ AcquireResult.success ∧
        host.acquireResult ≠ AcquireResult.suboptimal
    · right
      simp [drawFrame, hguard, hacq, FrameRecorded]
    · left
      by_cases hsub : host.submitOk = true
      · have hshape := frame_trace_shape
          { s with inFlightFenceSignaled := false }
          [GpuCmd.waitForFences, GpuCmd.acquireNextImage,
           GpuCmd.resetFences, GpuCmd.resetCommandBuffer]
          [GpuCmd.queueSubmit, GpuCmd.queuePresent]
          rfl (by decide) (by decide) rfl
        refine ⟨?_, ?_, ?_⟩
        · simp [drawFrame, hguard, hacq, hsub, FrameRecorded, recordedFrameCmds]
        · simp [drawFrame, hguard, hacq, hsub]
        · simp only [drawFrame, hguard, hacq, hsub]
          simpa [List.append_assoc] using hshape
      · have hsub' : host.submitOk = false := by
          rw [Bool.not_eq_true] at hsub
          exact hsub
        have hshape := frame_trace_shape
          { s with inFlightFenceSignaled := false }
          [GpuCmd.waitForFences, GpuCmd.acquireNextImage,
           GpuCmd.resetFences, GpuCmd.resetCommandBuffer]
          [GpuCmd.queueSubmit]
          rfl (by decide) (by decide) rfl
        refine ⟨?_, ?_, ?_⟩
        · simp [drawFrame, hguard, hacq, hsub', FrameRecorded, recordedFrameCmds]
        · simp [drawFrame, hguard, hacq, hsub']
        · simp only [drawFrame, hguard, hacq, hsub']
          simpa [List.append_assoc] using hshape

/-- One step of runFrames. -/
theorem runFrames_cons (s : RendererState) (hst : FrameHost) (hs : List FrameHost) :
    runFrames s (hst :: hs) =
      (drawFrame hst s).2 :: runFrames (drawFrame hst s).1 hs := by
  rcases hdf : drawFrame hst s with ⟨s', t⟩
  simp [runFrames, hdf]

/-- Across any run of DrawFrame calls, every recorded frame has the
shadow-cycle shape; its first-frame flag is true exactly when no frame had
been recorded before it since the shadow-layout flag was last cleared. -/
theorem recordedTraces_shape (hosts : List FrameHost) :
    ∀ (s : RendererState) (i : Nat) (tr : List GpuCmd),
      (recordedTraces s hosts).get? i = some tr →
      ShadowCycleShape (decide (i = 0) && !s.shadowLayoutInitialized) tr := by
  induction hosts with
  | nil =>
    intro s i tr hget
    simp [recordedTraces, runFrames] at hget
  | cons hst hs ih =>
    intro s i tr hget
    rcases hdf : drawFrame hst s with ⟨s', t⟩
    have hrt : recordedTraces s (hst :: hs) =
        if FrameRecorded t then t :: recordedTraces s' hs
        else recordedTraces s' hs := by
      unfold recordedTraces
      rw [runFrames_cons, hdf]
      simp [List.filter_cons]
    have hdich := drawFrame_dichotomy hst s
    rw [hdf] at hdich
    simp only at hdich
    rcases hdich with ⟨hrec, hinit', hshape⟩ | ⟨hrec, hinit'⟩
    · rw [hrt] at hget
      simp only [hrec, if_true] at hget
      cases i with
      | zero =>
        rw [List.get?_cons_zero, Option.some.injEq] at hget
        subst hget
        simpa using hshape
      | succ j =>
        rw [List.get?_cons_succ] at hget
        have := ih s' j tr hget
        rw [hinit'] at this
        simp only [Bool.not_true, Bool.and_false] at this
        simpa using this
    · rw [hrt] at hget
      simp only [hrec, Bool.false_eq_true, if_false] at hget
      have := ih s' i tr hget
      rw [hinit'] at this
      exact this

/-- Claim C1: starting from renderer creation (shadow-layout flag clear),
the first recorded frame transitions the shadow image from the undefined
layout and every later recorded frame from the shader-readable
(depth-stencil read-only) layout; within every recorded frame the image is
made attachment-writable before the shadow pass and returned to
shader-readable after it, before the main pass — the cycle undefined to
attachment-writable to shader-readable to attachment-writable and so on. -/
theorem C1_shadow_layout_cycle (s0 : RendererState) (hosts : List FrameHost)
    (hinit : s0.shadowLayoutInitialized = false) :
    ∀ (i : Nat) (tr : List GpuCmd),
      (recordedTraces s0 hosts).get? i = some tr →
      ShadowCycleShape (decide (i = 0)) tr := by
  intro i tr hget
  have := recordedTraces_shape hosts s0 i tr hget
  rw [hinit] at this
  simpa using this

/-- Witness for C1: two successfully recorded frames from a freshly
created renderer; the first has the undefined-layout shape and the second
the shader-readable shape. -/
theorem C1_shadow_layout_cycle_witness :
    (∃ tr, (recordedTraces sampleRenderer [sampleHost, sampleHost]).get? 0 = some tr ∧
      ShadowCycleShape true tr) ∧
    (∃ tr, (recordedTraces sampleRenderer [sampleHost, sampleHost]).get? 1 = some tr ∧
      ShadowCycleShape false tr) := by
  constructor
  · refine ⟨_, rfl, ?_⟩
    have := C1_shadow_layout_cycle sampleRenderer [sampleHost, sampleHost] rfl 0 _ rfl
    simpa using this
  · refine ⟨_, rfl, ?_⟩
    have := C1_shadow_layout_cycle sampleRenderer [sampleHost, sampleHost] rfl 1 _ rfl
    simpa using this

/-- Sequentiality splits across concatenation, the second block starting
after the first. -/
theorem Sequential_append (fs : Nat) :
    ∀ (l₁ l₂ : List (Nat × Nat × Nat)) (k : Nat),
      Sequential fs (l₁ ++ l₂) k ↔
      Sequential fs l₁ k ∧ Sequential fs l₂ (k + l₁.length) := by
  intro l₁
  induction l₁ with
  | nil =>
    intro l₂ k
    simp [Sequential]
  | cons t ts ih =>
    intro l₂ k
    constructor
    · rintro ⟨h1, hrest⟩
      rw [List.append_eq] at hrest
      rw [ih] at hrest
      refine ⟨⟨h1, hrest.1⟩, ?_⟩
      rw [List.length_cons, show k + (ts.length + 1) = k + 1 + ts.length from by omega]
      exact hrest.2
    · rintro ⟨⟨h1, h2⟩, h3⟩
      refine ⟨h1, ?_⟩
      rw [List.append_eq, ih]
      refine ⟨h2, ?_⟩
      rw [show k + 1 + ts.length = k + (ts.length + 1) from by omega]
      rw [List.length_cons] at h3
      exact h3

/-- A mapped range is sequential when the mapped pixel offsets are. -/
theorem Sequential_map_range (fs : Nat) (g : Nat → Nat × Nat × Nat) :
    ∀ (n k : Nat), (∀ x, x < n → pixelIndex fs (g x) = 4 * (k + x)) →
      Sequential fs ((List.range n).map g) k := by
  intro n
  induction n with
  | zero => intro k _; trivial
  | succ m ih =>
    intro k h
    rw [List.range_succ, List.map_append]
    rw [Sequential_append]
    refine ⟨ih k (fun x hx => h x (Nat.lt_succ_of_lt hx)), ?_⟩
    simp only [List.length_map, List.length_range, List.map_cons, List.map_nil, Sequential,
      and_true]
    exact h m (Nat.lt_succ_self m)

/-- The length of a flat-mapped range with constant block length. -/
theorem length_flatMap_range (g : Nat → List (Nat × Nat × Nat)) (blockLen : Nat)
    (hlen : ∀ y, (g y).length = blockLen) :
    ∀ n, ((List.range n).flatMap g).length = n * blockLen := by
  intro n
  induction n with
  | zero => simp
  | succ m ih =>
    rw [List.range_succ, List.flatMap_append, List.length_append, ih]
    simp [hlen]
    ring

/-- A flat-mapped range is sequential when every block is sequential at
its own offset and all blocks have the same length. -/
theorem Sequential_flatMap_range (fs : Nat) (g : Nat → List (Nat × Nat × Nat))
    (blockLen : Nat) (hlen : ∀ y, (g y).length = blockLen) :
    ∀ (n base : Nat), (∀ y, y < n → Sequential fs (g y) (base + y * blockLen)) →
      Sequential fs ((List.range n).flatMap g) base := by
  intro n
  induction n with
  | zero => intro base _; trivial
  | succ m ih =>
    intro base h
    rw [List.range_succ, List.flatMap_append]
    rw [Sequential_append]
    refine ⟨ih base (fun y hy => h y (Nat.lt_succ_of_lt hy)), ?_⟩
    rw [length_flatMap_range g blockLen hlen]
    have hm := h m (Nat.lt_succ_self m)
    simpa [Sequential_append, Sequential] using hm

/-- The loop enumeration of ConvertToCubemap is sequential from pixel 0. -/
theorem Sequential_faceTriples (fs : Nat) :
    Sequential fs (faceTriples fs) 0 := by
  unfold faceTriples
  apply Sequential_flatMap_range fs _ (fs * fs)
  · intro f
    rw [length_flatMap_range _ fs (fun y => by simp)]
  · intro f _
    apply Sequential_flatMap_range fs _ fs (fun y => by simp)
    intro y _
    apply Sequential_map_range
    intro x _
    unfold pixelIndex
    ring

/-- The number of triples the loops enumerate: six faces of fs * fs. -/
theorem length_faceTriples (fs : Nat) :
    (faceTriples fs).length = 6 * (fs * fs) := by
  unfold faceTriples
  exact length_flatMap_range _ (fs * fs)
    (fun f => length_flatMap_range _ fs (fun y => by simp) fs) 6

/-- Writing one pixel keeps the buffer length. -/
theorem writeCell_length (b : List Nat) (p : Nat) (v : Nat × Nat × Nat × Nat) :
    (writeCell b p v).length = b.length := by
  simp [writeCell]

/-- Writing one pixel does not touch positions below it. -/
theorem writeCell_getElem?_lt (b : List Nat) (p : Nat) (v : Nat × Nat × Nat × Nat)
    (i : Nat) (h : i < p) : (writeCell b p v)[i]? = b[i]? := by
  unfold writeCell
  rw [List.getElem?_set_ne (by omega), List.getElem?_set_ne (by omega),
    List.getElem?_set_ne (by omega), List.getElem?_set_ne (by omega)]

/-- The value read back from inside a freshly written pixel window depends
only on the written values and the buffer length. -/
theorem writeCell_getElem?_window' (b : List Nat) (p : Nat)
    (v : Nat × Nat × Nat × Nat) (i : Nat) (h1 : p ≤ i) (h2 : i < p + 4) :
    (writeCell b p v)[i]? =
      (if i < b.length then
        some (if i = p then v.1 else if i = p + 1 then v.2.1
          else if i = p + 2 then v.2.2.1 else v.2.2.2)
      else none) := by
  unfold writeCell
  have hi : i = p ∨ i = p + 1 ∨ i = p + 2 ∨ i = p + 3 := by omega
  rcases hi with rfl | rfl | rfl | rfl
  · rw [List.getElem?_set_ne (by omega), List.getElem?_set_ne (by omega),
      List.getElem?_set_ne (by omega), List.getElem?_set]
    simp
  · rw [List.getElem?_set_ne (by omega), List.getElem?_set_ne (by omega),
      List.getElem?_set]
    simp only [List.length_set]
    split_ifs <;> simp_all <;> omega
  · rw [List.getElem?_set_ne (by omega), List.getElem?_set]
    simp only [List.length_set]
    split_ifs <;> simp_all <;> omega
  · rw [List.getElem?_set]
    simp only [List.length_set]
    split_ifs <;> simp_all <;> omega

/-- Two equal-length buffers agree inside a freshly written pixel window. -/
theorem writeCell_getElem?_window (b₁ b₂ : List Nat) (p : Nat)
    (v : Nat × Nat × Nat × Nat) (hlen : b₁.length = b₂.length) (i : Nat)
    (h1 : p ≤ i) (h2 : i < p + 4) :
    (writeCell b₁ p v)[i]? = (writeCell b₂ p v)[i]? := by
  rw [writeCell_getElem?_window' b₁ p v i h1 h2,
    writeCell_getElem?_window' b₂ p v i h1 h2, hlen]

/-- The write loop of ConvertToCubemap: starting from two buffers of equal
length that agree below the write pointer, the results have unchanged
length and agree below the advanced write pointer. The written values are
functions of the image and face size only, never of the buffer. -/
theorem writeLoop_agree (ops : ScalarOps α) (img : HdrImageM α) (fs : Nat) :
    ∀ (ts : List (Nat × Nat × Nat)) (k : Nat), Sequential fs ts k →
    ∀ (b₁ b₂ : List Nat), b₁.length = b₂.length →
    (∀ i, i < 4 * k → b₁[i]? = b₂[i]?) →
    (ts.foldl (fun b t => writeCell b (pixelIndex fs t) (cellValue ops img fs t)) b₁).length
      = b₁.length ∧
    (ts.foldl (fun b t => writeCell b (pixelIndex fs t) (cellValue ops img fs t)) b₂).length
      = b₂.length ∧
    (∀ i, i < 4 * (k + ts.length) →
      (ts.foldl (fun b t => writeCell b (pixelIndex fs t) (cellValue ops img fs t)) b₁)[i]? =
      (ts.foldl (fun b t => writeCell b (pixelIndex fs t) (cellValue ops img fs t)) b₂)[i]?) := by
  intro ts
  induction ts with
  | nil =>
    intro k _ b₁ b₂ hlen hpre
    exact ⟨rfl, rfl, fun i hi => hpre i (by simpa using hi)⟩
  | cons t ts ih =>
    intro k hseq b₁ b₂ hlen hpre
    obtain ⟨hpix, hseq'⟩ := hseq
    simp only [List.foldl_cons, hpix]
    have hlen' : (writeCell b₁ (4 * k) (cellValue ops img fs t)).length =
        (writeCell b₂ (4 * k) (cellValue ops img fs t)).length := by
      rw [writeCell_length, writeCell_length, hlen]
    have hpre' : ∀ i, i < 4 * (k + 1) →
        (writeCell b₁ (4 * k) (cellValue ops img fs t))[i]? =
        (writeCell b₂ (4 * k) (cellValue ops img fs t))[i]? := by
      intro i hi
      by_cases hlt : i < 4 * k
      · rw [writeCell_getElem?_lt _ _ _ _ hlt, writeCell_getElem?_lt _ _ _ _ hlt]
        exact hpre i hlt
      · exact writeCell_getElem?_window b₁ b₂ (4 * k) _ hlen i (by omega) (by omega)
    obtain ⟨l1, l2, hagree⟩ := ih (k + 1) hseq' _ _ hlen' hpre'
    rw [writeCell_length] at l1
    rw [writeCell_length] at l2
    refine ⟨l1, l2, ?_⟩
    intro i hi
    exact hagree i (by simp only [List.length_cons] at hi ⊢; omega)

/-- Claim C8: the equirectangular-to-cubemap conversion is deterministic.
Its result depends only on the decoded HDR image, the face size and the
scalar operations: any two runs, even into staging buffers with different
prior contents, produce identical half-float RGBA output (or both fail on
an empty image). Every pixel of the resized buffer is overwritten with a
value computed purely from the inputs. -/
theorem C8_cubemap_conversion_deterministic {α : Type} (ops : ScalarOps α)
    (img : HdrImageM α) (faceSize : Nat) (b₁ b₂ : List Nat) :
    convertToCubemap ops img faceSize b₁ = convertToCubemap ops img faceSize b₂ := by
  unfold convertToCubemap
  split
  · rfl
  · have hlen₁ : (listResize b₁ (faceSize * faceSize * 6 * 4)).length =
        faceSize * faceSize * 6 * 4 := by
      simp [listResize]
      omega
    have hlen₂ : (listResize b₂ (faceSize * faceSize * 6 * 4)).length =
        faceSize * faceSize * 6 * 4 := by
      simp [listResize]
      omega
    obtain ⟨l1, l2, hagree⟩ := writeLoop_agree ops img faceSize (faceTriples faceSize) 0
      (Sequential_faceTriples faceSize)
      (listResize b₁ (faceSize * faceSize * 6 * 4))
      (listResize b₂ (faceSize * faceSize * 6 * 4))
      (by rw [hlen₁, hlen₂]) (by intro i hi; omega)
    show some ((faceTriples faceSize).foldl
        (fun b t => writeCell b (pixelIndex faceSize t) (cellValue ops img faceSize t))
        (listResize b₁ (faceSize * faceSize * 6 * 4))) =
      some ((faceTriples faceSize).foldl
        (fun b t => writeCell b (pixelIndex faceSize t) (cellValue ops img faceSize t))
        (listResize b₂ (faceSize * faceSize * 6 * 4)))
    congr 1
    apply List.ext_getElem?
    intro i
    by_cases hi : i < faceSize * faceSize * 6 * 4
    · apply hagree
      rw [length_faceTriples]
      omega
    · rw [List.getElem?_eq_none, List.getElem?_eq_none]
      · rw [l2, hlen₂]; omega
      · rw [l1, hlen₁]; omega

end Corebryo
